import Mathlib

/-! # AudioSeparatorApp (static/js/app.js): job lifecycle, file intake and playback

A shallow embedding of the class `AudioSeparatorApp`.  The instance fields, the
parts of the page the methods write, the interval timers of the browser and the
sequence of outward effects (notifications, requests, socket emissions) are
one record, `App`; every method is a function `App → App`.  An `async` method
receives the outcome of each request it awaits as an argument and runs to its
end in one step.

Numbers are rationals (no NaN, no rounding error); a duration that is NaN is
`none`.  Text that the page renders from data through `formatFileSize` or an
HTML template is kept as that data.  Methods that only decorate the page
(`detectDevice`, `updateModelInfo`, `updateVolumeValue`, the drag and waveform
handlers, the visualization helpers, `stopServer`) are outside the model.
-/

namespace AudioSeparatorApp

/-! ## Values -/

/-- The JavaScript values a job id can be: what `null`, a missing property or a
JSON scalar evaluates to. -/
inductive JSVal
  | undefined
  | null
  | bool (b : Bool)
  | num (n : ℚ)
  | str (s : String)
  deriving DecidableEq

/-- Truthiness, as tested by `if (v)` and `!v`. -/
def JSVal.truthy : JSVal → Bool
  | .undefined => false
  | .null => false
  | .bool b => b
  | .num n => decide (n ≠ 0)
  | .str s => decide (s ≠ "")

/-- Strict equality `a === b` on these values. -/
def strictEq (a b : JSVal) : Bool := decide (a = b)

/-- A browser `File`: the three properties the code reads. -/
structure File where
  name : String
  size : Nat
  type : String
  deriving DecidableEq

/-- One entry of the `stems` array returned by `/stems/...`. -/
structure Stem where
  name : String
  filename : String
  size : Nat
  url : String
  deriving DecidableEq

/-- The `settings` object built by `startProcessing`. -/
structure Settings where
  model : String
  format : String
  quality : String
  volume_boost : ℚ
  noise_reduction : Bool
  deriving DecidableEq

/-- The second argument of `showNotification`. -/
inductive NoticeType
  | success
  | error
  | warning
  | info
  deriving DecidableEq

/-- What the client does to the outside, in the order it does it. -/
inductive Effect
  /-- The call `showNotification(message, type)`. -/
  | notify (message : String) (type : NoticeType)
  /-- The request `fetch('/upload', POST)` with the files of the form data. -/
  | fetchUpload (files : List File)
  /-- The request `fetch('/process', POST)` with its JSON body. -/
  | fetchProcess (job_id : JSVal) (settings : Settings)
  /-- The request `fetch('/stop/' + currentJobId, POST)`. -/
  | fetchStop (job_id : JSVal)
  /-- The request `fetch('/stems/' + currentJobId + '/' + firstFile)`. -/
  | fetchStems (job_id : JSVal) (firstFile : String)
  /-- The emission `socket.emit('join_job', job_id)`. -/
  | emitJoinJob (job_id : JSVal)
  /-- The emission `socket.emit('ping')`. -/
  | emitPing
  /-- The call `console.log(text, arg)`. -/
  | consoleLog (text : String) (arg : JSVal)
  /-- The call `console.error(text, arg)`. -/
  | consoleError (text : String) (arg : JSVal)
  /-- The call `window.open(url, '_blank')`. -/
  | windowOpen (url : String)
  /-- The call `setTimeout(() => this.loadStemsForPlayback(), 500)`. -/
  | setTimeoutLoadStems
  deriving DecidableEq

/-- The icon a play button shows (`fa-play` or `fa-pause`). -/
inductive Icon
  | play
  | pause
  deriving DecidableEq

/-- One `.stem-player` element built by `displayStemsPlayer`: the stem it was
rendered from, its play button, the width of `#progress-i` in percent (`none`
while unset) and the text of `#time-i`. -/
structure StemPlayer where
  stem : Stem
  btn : Icon
  playing : Bool
  progress_width : Option ℚ
  time : String
  deriving DecidableEq

/-! ## State -/

/-- The instance fields of `AudioSeparatorApp`, the page elements its methods
write (a field `x_y` is property `y` of element `x`), the browser's interval
timers, and the effects so far. -/
structure App where
  currentJobId : JSVal
  uploadedFiles : List File
  isProcessing : Bool
  /-- Field `keepAliveInterval`: `none` while undefined or null, else the timer id. -/
  keepAliveInterval : Option Nat
  currentPlaylist : List Stem
  currentTrackIndex : Int
  isPlaying : Bool
  modelSelect : String
  formatSelect : String
  qualitySelect : String
  /-- The number that `parseFloat(volumeSlider.value)` yields. -/
  volumeSlider : ℚ
  noiseReduction : Bool
  fileList_display : String
  /-- The files rendered as `.file-item` elements, in order. -/
  filesContainer : List File
  processBtn_disabled : Bool
  processBtn_display : String
  stopBtn_display : String
  progressSection_display : String
  statusText : String
  deviceStatus : String
  deviceStatus_color : String
  /-- Property `overallProgress.style.width` in percent, `none` while unset. -/
  overallProgress_width : Option ℚ
  overallText : String
  fileProgress_width : Option ℚ
  fileText : String
  resultsSection_display : String
  /-- The `total_files` and `total_time` rendered into `resultsInfo`. -/
  resultsInfo : Option (Nat × String)
  /-- The url that `downloadBtn.onclick` opens, `none` while no handler is bound. -/
  downloadBtn_onclick : Option String
  /-- Property `style.display` of `#playbackSection`; `none` if the page has no such element. -/
  playbackSection_display : Option String
  stemsPlayer : List StemPlayer
  audioPlayerModal_display : String
  audio_src : String
  audio_paused : Bool
  audio_currentTime : ℚ
  /-- Property `audioElement.duration`; `none` is NaN. -/
  audio_duration : Option ℚ
  audio_volume : ℚ
  playPauseBtn : Icon
  progressSlider_value : ℚ
  progressSlider_max : ℚ
  volumeControl : ℚ
  currentTime : String
  totalTime : String
  /-- The track rendered into `trackTitle` and `trackArtist`. -/
  trackInfo : Option Stem
  socket_connected : Bool
  /-- The ids of the interval timers that are running. -/
  intervals : List Nat
  /-- The last timer id the browser handed out. -/
  timerSeq : Nat
  effects : List Effect
  deriving DecidableEq

/-- The instance fields as the constructor sets them (no job, no file, not
processing, empty playlist, not playing), on a page whose elements carry no
inline style or text yet, before the socket connects. -/
def App.initial : App where
  currentJobId := .null
  uploadedFiles := []
  isProcessing := false
  keepAliveInterval := none
  currentPlaylist := []
  currentTrackIndex := 0
  isPlaying := false
  modelSelect := "htdemucs"
  formatSelect := "wav"
  qualitySelect := "high"
  volumeSlider := 1
  noiseReduction := false
  fileList_display := ""
  filesContainer := []
  processBtn_disabled := false
  processBtn_display := ""
  stopBtn_display := ""
  progressSection_display := ""
  statusText := ""
  deviceStatus := ""
  deviceStatus_color := ""
  overallProgress_width := none
  overallText := ""
  fileProgress_width := none
  fileText := ""
  resultsSection_display := ""
  resultsInfo := none
  downloadBtn_onclick := none
  playbackSection_display := some ""
  stemsPlayer := []
  audioPlayerModal_display := ""
  audio_src := ""
  audio_paused := true
  audio_currentTime := 0
  audio_duration := none
  audio_volume := 1
  playPauseBtn := .play
  progressSlider_value := 0
  progressSlider_max := 100
  volumeControl := 100
  currentTime := ""
  totalTime := ""
  trackInfo := none
  socket_connected := false
  intervals := []
  timerSeq := 0
  effects := []

/-! ## Browser primitives -/

/-- Append one effect to the record of effects. -/
def emitEffect (e : Effect) (s : App) : App :=
  { s with effects := s.effects ++ [e] }

/-- Method `showNotification(message, type)`: the toast is recorded as an effect. -/
def showNotification (message : String) (type : NoticeType) (s : App) : App :=
  emitEffect (.notify message type) s

/-- The browser's `setInterval`: hands out a fresh positive id and starts that timer. -/
def setInterval (s : App) : Nat × App :=
  (s.timerSeq + 1, { s with timerSeq := s.timerSeq + 1, intervals := s.intervals ++ [s.timerSeq + 1] })

/-- The browser's `clearInterval(id)`: that timer stops. -/
def clearInterval (id : Nat) (s : App) : App :=
  { s with intervals := s.intervals.filter (fun t => t != id) }

/-! ## String primitives -/

/-- Method `haystack.includes(needle)` of JavaScript strings. -/
def includes (haystack needle : String) : Bool :=
  haystack.toList.tails.any (fun t => needle.toList.isPrefixOf t)

/-- Method `s.endsWith(suffix)` of JavaScript strings. -/
def endsWith (s suffix : String) : Bool :=
  suffix.toList.isSuffixOf s.toList

/-- Method `s.toLowerCase()`, on the ASCII letters. -/
def toLowerCase (s : String) : String :=
  String.mk (s.toList.map Char.toLower)

/-- The pieces of `s.split(sep)` for a one-character separator, on character lists. -/
def splitChars (sep : Char) : List Char → List (List Char)
  | [] => [[]]
  | c :: cs =>
    if c = sep then [] :: splitChars sep cs
    else
      match splitChars sep cs with
      | [] => [[c]]
      | piece :: rest => (c :: piece) :: rest

/-- The expression `s.split(sep)[i]`; `none` is undefined. -/
def splitAt (s : String) (sep : Char) (i : Nat) : Option String :=
  ((splitChars sep s.toList).get? i).map String.mk

/-! ## File intake -/

/-- The array `validTypes` of `addFiles`. -/
def validTypes : List String :=
  ["audio/wav", "audio/mp3", "audio/mpeg", "audio/flac", "audio/ogg", "audio/m4a", "audio/aac"]

/-- The extensions tested by `addFiles`. -/
def validExtensions : List String :=
  [".wav", ".mp3", ".flac", ".ogg", ".m4a", ".aac"]

/-- The predicate of `files.filter(...)` in `addFiles`. -/
def isAudioFile (file : File) : Bool :=
  validTypes.any (fun type => includes file.type ((splitAt type '/' 1).getD "undefined"))
    || validExtensions.any (fun ext => endsWith (toLowerCase file.name) ext)

/-- Method `updateFileList()`. -/
def updateFileList (s : App) : App :=
  if s.uploadedFiles.length = 0 then
    { s with fileList_display := "none" }
  else
    { s with fileList_display := "block", filesContainer := s.uploadedFiles }

/-- Method `updateProcessButton()`. -/
def updateProcessButton (s : App) : App :=
  { s with processBtn_disabled := decide (s.uploadedFiles.length = 0) || s.isProcessing }

/-- One round of the `audioFiles.forEach` loop of `addFiles`: push `file` unless
`uploadedFiles.find` returns an entry with its name and size. -/
def pushUnlessPresent (uploaded : List File) (file : File) : List File :=
  if (uploaded.find? (fun f => decide (f.name = file.name) && decide (f.size = file.size))).isSome then
    uploaded
  else
    uploaded ++ [file]

/-- Method `addFiles(files)`. -/
def addFiles (files : List File) (s : App) : App :=
  let audioFiles := files.filter isAudioFile
  if audioFiles.length = 0 then
    showNotification "Please select valid audio files" .error s
  else
    updateProcessButton
      (updateFileList { s with uploadedFiles := audioFiles.foldl pushUnlessPresent s.uploadedFiles })

/-- The array operation `xs.splice(index, 1)`: a negative index counts from the
end, an index past the end removes nothing. -/
def splice1 {α : Type} (xs : List α) (index : Int) : List α :=
  if index < 0 then xs.eraseIdx (Int.toNat (xs.length + index))
  else xs.eraseIdx (Int.toNat index)

/-- Method `removeFile(index)`. -/
def removeFile (index : Int) (s : App) : App :=
  updateProcessButton (updateFileList { s with uploadedFiles := splice1 s.uploadedFiles index })

/-- Method `clearFiles()`. -/
def clearFiles (s : App) : App :=
  updateProcessButton (updateFileList { s with uploadedFiles := [] })

/-! ## Playback display helpers -/

/-- The remainder `a % b` of JavaScript numbers: it has the sign of `a`. -/
def jsRem (a b : ℚ) : ℚ :=
  a - b * (if 0 ≤ a / b then Int.floor (a / b) else Int.ceil (a / b))

/-- Method `text.padStart(2, '0')`. -/
def padStart2 (text : String) : String :=
  String.mk (List.replicate (2 - text.length) '0') ++ text

/-- Method `formatTime(seconds)`; `none` is NaN. -/
def formatTime (seconds : Option ℚ) : String :=
  match seconds with
  | none => "0:00"
  | some t =>
    toString (Int.floor (t / 60)) ++ ":" ++ padStart2 (toString (Int.floor (jsRem t 60)))

/-- The `forEach((x, i) => ...)` traversal: apply `f` to each element with its index, counting from `i`. -/
def forEachIdx {α : Type} (f : Nat → α → α) : Nat → List α → List α
  | _, [] => []
  | i, x :: xs => f i x :: forEachIdx f (i + 1) xs

/-- Method `updateStemPlayButton(index, isPlaying)`. -/
def updateStemPlayButton (index : Int) (isPlaying : Bool) (s : App) : App :=
  { s with stemsPlayer := forEachIdx (fun i p =>
      if (i : Int) = index then
        { p with btn := if isPlaying then Icon.pause else Icon.play, playing := isPlaying }
      else
        { p with btn := Icon.play, playing := false }) 0 s.stemsPlayer }

/-- Method `updateStemProgress(index, progress)`: the elements `#progress-index`
and `#time-index` exist exactly for the stems that were rendered. -/
def updateStemProgress (index : Int) (progress : ℚ) (s : App) : App :=
  { s with stemsPlayer := forEachIdx (fun i p =>
      if (i : Int) = index then
        { p with
          progress_width := some progress,
          time := if s.audio_currentTime ≠ 0 then formatTime (some s.audio_currentTime) else p.time }
      else p) 0 s.stemsPlayer }

/-- Method `updateAudioProgress()`. -/
def updateAudioProgress (s : App) : App :=
  match s.audio_duration with
  | none => s
  | some d =>
    if d = 0 then s
    else
      let progress := s.audio_currentTime / d * 100
      updateStemProgress s.currentTrackIndex progress
        { s with
          progressSlider_value := progress,
          currentTime := formatTime (some s.audio_currentTime) }

/-! ## Progress display -/

/-- The payload of a `processing_update` event; `none` is an absent property. -/
structure ProgressData where
  job_id : JSVal
  status : Option String
  device : Option String
  overall_progress : Option ℚ
  file_progress : Option ℚ
  current_file : Option String
  deriving DecidableEq

/-- The payload of a `processing_complete` event. -/
structure CompleteData where
  job_id : JSVal
  total_files : Nat
  total_time : String
  download_url : String
  deriving DecidableEq

/-- The payload of a `processing_error` event. -/
structure ErrorData where
  job_id : JSVal
  error : String
  deriving DecidableEq

/-- The function `Math.round`. -/
def mathRound (x : ℚ) : Int := Int.floor (x + 1 / 2)

/-- The first declaration of `updateProgress` in the class body (source line
448, "Handle processing progress updates"); the payload is an object, so its
guard is the truthiness of `job_id`. -/
def updateProgress_line448 (data : ProgressData) (s : App) : App :=
  if data.job_id.truthy then
    let s1 := match data.status with
      | some text => if text ≠ "" then { s with statusText := text } else s
      | none => s
    let s2 := match data.device with
      | some dev =>
        if dev ≠ "" then
          { s1 with
            deviceStatus := (if dev = "cuda" then "🚀" else "🖥️") ++ " "
              ++ (if dev = "cuda" then "GPU" else "CPU") ++ " Active",
            deviceStatus_color := "var(--success-color)" }
        else s1
      | none => s1
    let s3 := match data.overall_progress with
      | some p =>
        { s2 with overallProgress_width := some p, overallText := toString (mathRound p) ++ "%" }
      | none => s2
    let s4 := match data.file_progress with
      | some p =>
        { s3 with fileProgress_width := some p, fileText := toString (mathRound p) ++ "%" }
      | none => s3
    match data.current_file with
    | some file => if file ≠ "" then { s4 with statusText := "Processing: " ++ file } else s4
    | none => s4
  else s

/-- The second declaration of `updateProgress` in the class body (source line
769); it takes no parameter and has the body of `updateAudioProgress`. -/
def updateProgress_line769 (s : App) : App :=
  match s.audio_duration with
  | none => s
  | some d =>
    if d = 0 then s
    else
      let progress := s.audio_currentTime / d * 100
      updateStemProgress s.currentTrackIndex progress
        { s with
          progressSlider_value := progress,
          currentTime := formatTime (some s.audio_currentTime) }

/-- The declarations the class body gives for the name `updateProgress`, in
source order. -/
def updateProgressDeclarations : List (ProgressData → App → App) :=
  [updateProgress_line448, fun _ => updateProgress_line769]

/-- The method `this.updateProgress`: a class body that declares a name more
than once binds it to the last declaration. -/
def updateProgress (data : ProgressData) (s : App) : App :=
  match updateProgressDeclarations.getLast? with
  | some method => method data s
  | none => s

/-! ## Job submission and lifecycle -/

/-- How the awaited `fetch('/upload')` and `uploadResponse.json()` end. -/
inductive UploadOutcome
  /-- The `fetch` promise rejects with an error of this message. -/
  | rejected (message : String)
  /-- The response arrives with `ok` false. -/
  | notOk
  /-- The response is ok but reading `job_id` from its body throws this message. -/
  | badBody (message : String)
  /-- The response is ok and its body has this `job_id`. -/
  | ok (job_id : JSVal)
  deriving DecidableEq

/-- How the awaited `fetch('/process')` ends. -/
inductive ProcessOutcome
  | rejected (message : String)
  | notOk
  | ok
  deriving DecidableEq

/-- How the awaited `fetch('/stop/...')` ends; the response status is not read. -/
inductive StopOutcome
  | rejected (message : String)
  | resolved
  deriving DecidableEq

/-- How the awaited `fetch('/stems/...')` and `response.json()` end; the body has
a `stems` array or none. -/
inductive StemsOutcome
  | rejected (message : String)
  | notOk (status : Nat)
  | badBody (message : String)
  | ok (stems : Option (List Stem))
  deriving DecidableEq

/-- The object `settings` of `startProcessing`, read from the inputs of the page. -/
def settingsOf (s : App) : Settings :=
  { model := s.modelSelect, format := s.formatSelect, quality := s.qualitySelect,
    volume_boost := s.volumeSlider, noise_reduction := s.noiseReduction }

/-- The message of the error that `startProcessing` catches when the upload fails. -/
def uploadErrorMessage : UploadOutcome → String
  | .rejected message => message
  | .notOk => "Upload failed"
  | .badBody message => message
  | .ok _ => ""

/-- The message of the error that `startProcessing` catches when the process start fails. -/
def processErrorMessage : ProcessOutcome → String
  | .rejected message => message
  | .notOk => "Processing failed to start"
  | .ok => ""

/-- The `catch (error)` block of `startProcessing`. -/
def startProcessingCatch (message : String) (s : App) : App :=
  showNotification ("Error: " ++ message) .error s

/-- The statements of `startProcessing` after the process response was found ok. -/
def startProcessingStarted (s : App) : App :=
  let s1 := { s with
    isProcessing := true,
    processBtn_display := "none",
    stopBtn_display := "inline-flex",
    progressSection_display := "block",
    resultsSection_display := "none" }
  let s2 := showNotification "Processing started..." .success s1
  let (id, s3) := setInterval s2
  { s3 with keepAliveInterval := some id }

/-- Method `startProcessing()`, given how its two requests end. -/
def startProcessing (upload : UploadOutcome) (process : ProcessOutcome) (s : App) : App :=
  if s.uploadedFiles.length = 0 then
    showNotification "Please select audio files first" .error s
  else
    let s1 := showNotification "Uploading files..." .info s
    let s2 := emitEffect (.fetchUpload s1.uploadedFiles) s1
    match upload with
    | .rejected message => startProcessingCatch message s2
    | .notOk => startProcessingCatch "Upload failed" s2
    | .badBody message => startProcessingCatch message s2
    | .ok job_id =>
      let s3 := { s2 with currentJobId := job_id }
      let s4 := emitEffect (.emitJoinJob s3.currentJobId) s3
      let settings := settingsOf s4
      let s5 := emitEffect (.fetchProcess s4.currentJobId settings) s4
      match process with
      | .rejected message => startProcessingCatch message s5
      | .notOk => startProcessingCatch "Processing failed to start" s5
      | .ok => startProcessingStarted s5

/-- The block "Clear keep-alive interval" shared by `handleProcessingComplete`
and `handleProcessingStop`; the test `if (this.keepAliveInterval)` passes for an
id other than 0. -/
def clearKeepAlive (s : App) : App :=
  match s.keepAliveInterval with
  | some id => if id ≠ 0 then { clearInterval id s with keepAliveInterval := none } else s
  | none => s

/-- Method `handleProcessingStop()`. -/
def handleProcessingStop (s : App) : App :=
  clearKeepAlive (updateProcessButton
    { s with
      isProcessing := false,
      processBtn_display := "inline-flex",
      stopBtn_display := "none" })

/-- Method `stopProcessing()`, given how its request ends. -/
def stopProcessing (stop : StopOutcome) (s : App) : App :=
  if !s.currentJobId.truthy then s
  else
    let s1 := emitEffect (.fetchStop s.currentJobId) s
    match stop with
    | .resolved => handleProcessingStop s1
    | .rejected message => showNotification ("Error stopping: " ++ message) .error s1

/-- Method `handleProcessingComplete(data)`. -/
def handleProcessingComplete (data : CompleteData) (s : App) : App :=
  let s1 := { s with
    isProcessing := false,
    processBtn_display := "inline-flex",
    stopBtn_display := "none",
    progressSection_display := "none",
    resultsSection_display := "block" }
  let s2 := clearKeepAlive s1
  let s3 := { s2 with
    resultsInfo := some (data.total_files, data.total_time),
    downloadBtn_onclick := some data.download_url }
  let s4 := updateProcessButton s3
  let s5 := showNotification "Processing completed successfully!" .success s4
  emitEffect .setTimeoutLoadStems s5

/-- Method `handleProcessingError(data)`. -/
def handleProcessingError (data : ErrorData) (s : App) : App :=
  showNotification ("Processing error: " ++ data.error) .error (handleProcessingStop s)

/-! ## Socket listeners (`setupSocketListeners`) -/

/-- The listener for `connect`. -/
def on_connect (s : App) : App :=
  showNotification "Connected to server" .success
    (emitEffect (.consoleLog "Connected to server" .undefined) { s with socket_connected := true })

/-- The listener for `disconnect`. -/
def on_disconnect (s : App) : App :=
  showNotification "Connection lost. Reconnecting..." .warning
    (emitEffect (.consoleLog "Disconnected from server" .undefined) { s with socket_connected := false })

/-- The listener for `processing_update`. -/
def on_processing_update (data : ProgressData) (s : App) : App :=
  if strictEq data.job_id s.currentJobId then updateProgress data s else s

/-- The listener for `processing_complete`. -/
def on_processing_complete (data : CompleteData) (s : App) : App :=
  if strictEq data.job_id s.currentJobId then handleProcessingComplete data s else s

/-- The listener for `processing_error`. -/
def on_processing_error (data : ErrorData) (s : App) : App :=
  if strictEq data.job_id s.currentJobId then handleProcessingError data s else s

/-- The listener for `reconnect`. -/
def on_reconnect (s : App) : App :=
  let s1 := emitEffect (.consoleLog "Reconnected to server" .undefined) { s with socket_connected := true }
  let s2 := showNotification "Reconnected to server" .success s1
  if s2.currentJobId.truthy then emitEffect (.emitJoinJob s2.currentJobId) s2 else s2

/-- The callback given to `setInterval` in `startProcessing`, run when timer `id`
fires; a timer that was cleared does not fire. -/
def keepAliveTick (id : Nat) (s : App) : App :=
  if id ∈ s.intervals then
    if s.socket_connected then emitEffect .emitPing s else s
  else s

/-- A click on `downloadBtn`: the listener `downloadResults` does nothing, the
`onclick` handler bound by `handleProcessingComplete` opens the url. -/
def downloadClick (s : App) : App :=
  match s.downloadBtn_onclick with
  | some url => emitEffect (.windowOpen url) s
  | none => s

/-- The click listener of `newProcessBtn`. -/
def newProcessClick (s : App) : App :=
  clearFiles { s with resultsSection_display := "none" }

/-! ## Playback -/

/-- Method `displayStemsPlayer(stems)`. -/
def displayStemsPlayer (stems : List Stem) (s : App) : App :=
  { s with stemsPlayer := stems.map (fun stem =>
      { stem := stem, btn := Icon.play, playing := false, progress_width := none, time := "0:00" }) }

/-- Method `loadStemsForPlayback()`, given how its request ends. -/
def loadStemsForPlayback (out : StemsOutcome) (s : App) : App :=
  match s.uploadedFiles with
  | [] => s
  | first :: _ =>
    if !s.currentJobId.truthy then s
    else
      let firstFile := (splitAt first.name '.' 0).getD ""
      let s1 := emitEffect (.fetchStems s.currentJobId firstFile) s
      match out with
      | .rejected message => emitEffect (.consoleError "Error loading stems:" (.str message)) s1
      | .notOk status => emitEffect (.consoleError "Failed to load stems:" (.num status)) s1
      | .badBody message => emitEffect (.consoleError "Error loading stems:" (.str message)) s1
      | .ok none => s1
      | .ok (some stems) =>
        if stems.length > 0 then
          let s2 := displayStemsPlayer stems s1
          let s3 := { s2 with currentPlaylist := stems }
          match s3.playbackSection_display with
          | some _ => { s3 with playbackSection_display := some "block" }
          | none => s3
        else s1

/-- Method `loadTrack(index)`. -/
def loadTrack (index : Int) (s : App) : App :=
  if index < 0 ∨ index ≥ s.currentPlaylist.length then s
  else
    match s.currentPlaylist.get? index.toNat with
    | none => s
    | some track =>
      { s with audio_src := track.url, trackInfo := some track, currentTrackIndex := index }

/-- Method `playAudio()`. -/
def playAudio (s : App) : App :=
  updateStemPlayButton s.currentTrackIndex true
    { s with audio_paused := false, isPlaying := true, playPauseBtn := Icon.pause }

/-- Method `pauseAudio()`. -/
def pauseAudio (s : App) : App :=
  updateStemPlayButton s.currentTrackIndex false
    { s with audio_paused := true, isPlaying := false, playPauseBtn := Icon.play }

/-- Method `playStem(index)`. -/
def playStem (index : Int) (s : App) : App :=
  playAudio { loadTrack index { s with currentTrackIndex := index } with audioPlayerModal_display := "block" }

/-- Method `togglePlayPause()`. -/
def togglePlayPause (s : App) : App :=
  if s.isPlaying then pauseAudio s else playAudio s

/-- Method `stopAudio()`. -/
def stopAudio (s : App) : App :=
  let s1 := { s with
    audio_paused := true,
    audio_currentTime := 0,
    isPlaying := false,
    playPauseBtn := Icon.play,
    progressSlider_value := 0,
    currentTime := "0:00" }
  updateStemProgress s1.currentTrackIndex 0 (updateStemPlayButton s1.currentTrackIndex false s1)

/-- Method `previousTrack()`. -/
def previousTrack (s : App) : App :=
  let newIndex : Int :=
    if s.currentTrackIndex > 0 then s.currentTrackIndex - 1 else s.currentPlaylist.length - 1
  let s1 := loadTrack newIndex s
  if s1.isPlaying then playAudio s1 else s1

/-- Method `nextTrack()`. -/
def nextTrack (s : App) : App :=
  let newIndex : Int :=
    if s.currentTrackIndex < s.currentPlaylist.length - 1 then s.currentTrackIndex + 1 else 0
  let s1 := loadTrack newIndex s
  if s1.isPlaying then playAudio s1 else s1

/-- Method `seekAudio()`: assigning NaN to `currentTime` throws, which ends the handler. -/
def seekAudio (s : App) : App :=
  match s.audio_duration with
  | none => s
  | some d => { s with audio_currentTime := s.progressSlider_value / 100 * d }

/-- Method `updateVolume()`. -/
def updateVolume (s : App) : App :=
  { s with audio_volume := s.volumeControl / 100 }

/-- Method `updateAudioInfo()`. -/
def updateAudioInfo (s : App) : App :=
  { s with totalTime := formatTime s.audio_duration, progressSlider_max := 100 }

/-- Method `closeAudioPlayer()`. -/
def closeAudioPlayer (s : App) : App :=
  updateStemPlayButton s.currentTrackIndex false
    { pauseAudio s with audioPlayerModal_display := "none" }

/-! ## Operations -/

/-- The operations of the client: the user's actions on the page, the socket
events, the timer and media callbacks.  An operation that awaits a request
carries the outcome of the request; an `input` on a slider carries its new value. -/
inductive Op
  | addFiles (files : List File)
  | removeFile (index : Int)
  | clearFiles
  | startProcessing (upload : UploadOutcome) (process : ProcessOutcome)
  | stopProcessing (stop : StopOutcome)
  | handleProcessingStop
  | connect
  | disconnect
  | processing_update (data : ProgressData)
  | processing_complete (data : CompleteData)
  | processing_error (data : ErrorData)
  | reconnect
  | keepAliveTick (id : Nat)
  | downloadClick
  | newProcessClick
  | loadStemsForPlayback (out : StemsOutcome)
  | playStem (index : Int)
  | loadTrack (index : Int)
  | togglePlayPause
  | playAudio
  | pauseAudio
  | stopAudio
  | previousTrack
  | nextTrack
  | seekAudio (value : ℚ)
  | updateVolume (value : ℚ)
  | loadedmetadata (duration : Option ℚ)
  | timeupdate (time : ℚ)
  | ended
  | closeAudioPlayer
  deriving DecidableEq

/-- One operation on the client state. -/
def step (op : Op) (s : App) : App :=
  match op with
  | .addFiles files => addFiles files s
  | .removeFile index => removeFile index s
  | .clearFiles => clearFiles s
  | .startProcessing upload process => startProcessing upload process s
  | .stopProcessing stop => stopProcessing stop s
  | .handleProcessingStop => handleProcessingStop s
  | .connect => on_connect s
  | .disconnect => on_disconnect s
  | .processing_update data => on_processing_update data s
  | .processing_complete data => on_processing_complete data s
  | .processing_error data => on_processing_error data s
  | .reconnect => on_reconnect s
  | .keepAliveTick id => keepAliveTick id s
  | .downloadClick => downloadClick s
  | .newProcessClick => newProcessClick s
  | .loadStemsForPlayback out => loadStemsForPlayback out s
  | .playStem index => playStem index s
  | .loadTrack index => loadTrack index s
  | .togglePlayPause => togglePlayPause s
  | .playAudio => playAudio s
  | .pauseAudio => pauseAudio s
  | .stopAudio => stopAudio s
  | .previousTrack => previousTrack s
  | .nextTrack => nextTrack s
  | .seekAudio value => seekAudio { s with progressSlider_value := value }
  | .updateVolume value => updateVolume { s with volumeControl := value }
  | .loadedmetadata duration => updateAudioInfo { s with audio_duration := duration }
  | .timeupdate time => updateAudioProgress { s with audio_currentTime := time }
  | .ended => nextTrack s
  | .closeAudioPlayer => closeAudioPlayer s

/-- A sequence of operations, run from left to right. -/
def run (ops : List Op) (s : App) : App :=
  ops.foldl (fun acc op => step op acc) s

/-! ## Sample data (the scenario of the specification) -/

/-- The file `track.wav` of the scenario. -/
def trackWav : File := { name := "track.wav", size := 1024, type := "audio/wav" }

/-- A client whose active job is "abc", with no other field set. -/
def activeAbc : App := { App.initial with currentJobId := .str "abc" }

/-- The scenario up to the start of job "abc": connect, select `track.wav`, submit. -/
def scenarioStart : List Op :=
  [.connect, .addFiles [trackWav], .startProcessing (.ok (.str "abc")) .ok]

/-- The snapshot of the scenario: job "abc", overall progress 42, nothing else. -/
def snapshot42 : ProgressData :=
  { job_id := .str "abc", status := none, device := none,
    overall_progress := some 42, file_progress := none, current_file := none }

/-- One stem of the result of job "abc". -/
def vocals : Stem :=
  { name := "vocals", filename := "track_vocals.wav", size := 2048,
    url := "/stems/abc/track/vocals.wav" }

/-- The scenario continued: job "abc" completes, its stem is loaded and played
(the track lasts 60 seconds), the same file is submitted again as job "def",
and the user drags the progress slider to the middle of the track. -/
def scenarioPlayback : List Op :=
  scenarioStart ++
    [.processing_complete ⟨.str "abc", 1, "3s", "/d/abc"⟩,
     .loadStemsForPlayback (.ok (some [vocals])),
     .playStem 0,
     .loadedmetadata (some 60),
     .startProcessing (.ok (.str "def")) .ok,
     .seekAudio 50]

/-- A snapshot for job "def" that carries a status text only. -/
def snapshotStatus : ProgressData :=
  { job_id := .str "def", status := some "Separating", device := none,
    overall_progress := none, file_progress := none, current_file := none }

/-- The scenario with the submission made twice (answers "abc", then "def")
before job "def" completes. -/
def scenarioDoubleStart : List Op :=
  [.connect, .addFiles [trackWav],
   .startProcessing (.ok (.str "abc")) .ok,
   .startProcessing (.ok (.str "def")) .ok,
   .processing_complete ⟨.str "def", 1, "3s", "/d/def"⟩]

/-- The playback scenario continued: the user stops job "def" and the stop request resolves. -/
def scenarioStopped : List Op :=
  scenarioPlayback ++ [.stopProcessing .resolved]

/-! ## Vocabulary of the statements on file intake -/

/-- The dedupe key of `addFiles`: the pair (name, size). -/
def fileKey (f : File) : String × Nat := (f.name, f.size)

/-- No two entries of the list have the same (name, size) pair. -/
def NoDuplicateKeys (files : List File) : Prop := (files.map fileKey).Nodup

/-- The reading of the specification for the type test: the declared media type
is one of the audio formats of the allow-list. -/
def allowListedAudioType (type : String) : Bool := validTypes.contains type

/-- The extension test of `addFiles`, on its own. -/
def hasAudioExtension (name : String) : Bool :=
  validExtensions.any (fun ext => endsWith (toLowerCase name) ext)

/-- A video file whose media type contains the fragment "ogg". -/
def clipOgv : File := { name := "clip.ogv", size := 4096, type := "video/ogg" }

/-- A text file, which the filter rejects. -/
def notesTxt : File := { name := "notes.txt", size := 12, type := "text/plain" }

/-! ## Sample data for playback -/

/-- A second stem of the result of job "abc". -/
def drums : Stem :=
  { name := "drums", filename := "track_drums.wav", size := 4096,
    url := "/stems/abc/track/drums.wav" }

/-- The one stem of the result of job "def". -/
def vocalsDef : Stem :=
  { name := "vocals", filename := "track_vocals.wav", size := 2048,
    url := "/stems/def/track/vocals.wav" }

/-- The scenario up to a loaded playlist: job "abc" completes and its one stem is loaded. -/
def scenarioLoaded : List Op :=
  scenarioStart ++
    [.processing_complete ⟨.str "abc", 1, "3s", "/d/abc"⟩,
     .loadStemsForPlayback (.ok (some [vocals]))]

/-- The scenario up to a playlist of two stems, the second of which is played. -/
def scenarioTwoStems : List Op :=
  scenarioStart ++
    [.processing_complete ⟨.str "abc", 1, "3s", "/d/abc"⟩,
     .loadStemsForPlayback (.ok (some [vocals, drums])),
     .playStem 1]

/-- Two jobs in a row: after the second stem of job "abc" was played, job "def"
is submitted, completes, and its one stem is loaded. -/
def scenarioReload : List Op :=
  scenarioTwoStems ++
    [.startProcessing (.ok (.str "def")) .ok,
     .processing_complete ⟨.str "def", 1, "3s", "/d/def"⟩,
     .loadStemsForPlayback (.ok (some [vocalsDef]))]

/-! ## Theorems -/

theorem isAudioFile_trackWav : isAudioFile trackWav = true := by decide

theorem splice1_examples :
    splice1 [1, 2, 3] (-1) = [1, 2] ∧ splice1 [1, 2, 3] 5 = [1, 2, 3] ∧ splice1 [1, 2, 3] 1 = [1, 3] := by
  decide

/-! ### C1: events of another job are discarded -/

/-- C1. A `processing_update`, `processing_complete` or `processing_error` event
whose `job_id` differs from `currentJobId` leaves the whole client state as it
was: every display field, `isProcessing`, the keep-alive timer, the download
binding, `currentJobId`, and the effects (no notification). -/
theorem stale_event_discarded (s : App) (u : ProgressData) (c : CompleteData) (e : ErrorData) :
    (u.job_id ≠ s.currentJobId → step (.processing_update u) s = s) ∧
    (c.job_id ≠ s.currentJobId → step (.processing_complete c) s = s) ∧
    (e.job_id ≠ s.currentJobId → step (.processing_error e) s = s) := by
  refine ⟨fun h => ?_, fun h => ?_, fun h => ?_⟩
  · simp [step, on_processing_update, strictEq, h]
  · simp [step, on_processing_complete, strictEq, h]
  · simp [step, on_processing_error, strictEq, h]

/-- C1 at the scenario: events tagged "zzz" while the active job is "abc". -/
theorem stale_event_discarded_witness :
    JSVal.str "zzz" ≠ activeAbc.currentJobId ∧
    step (.processing_update ⟨.str "zzz", none, none, some 99, none, none⟩) activeAbc = activeAbc ∧
    step (.processing_complete ⟨.str "zzz", 1, "3s", "/d/zzz"⟩) activeAbc = activeAbc ∧
    step (.processing_error ⟨.str "zzz", "failed"⟩) activeAbc = activeAbc :=
  ⟨by decide,
   (stale_event_discarded activeAbc ⟨.str "zzz", none, none, some 99, none, none⟩
      ⟨.str "zzz", 1, "3s", "/d/zzz"⟩ ⟨.str "zzz", "failed"⟩).1 (by decide),
   (stale_event_discarded activeAbc ⟨.str "zzz", none, none, some 99, none, none⟩
      ⟨.str "zzz", 1, "3s", "/d/zzz"⟩ ⟨.str "zzz", "failed"⟩).2.1 (by decide),
   (stale_event_discarded activeAbc ⟨.str "zzz", none, none, some 99, none, none⟩
      ⟨.str "zzz", 1, "3s", "/d/zzz"⟩ ⟨.str "zzz", "failed"⟩).2.2 (by decide)⟩

/-! ### C2: the overall percentage of an accepted snapshot -/

/-- The name `updateProgress` is bound to the declaration of line 769. -/
theorem updateProgress_eq_line769 (data : ProgressData) (s : App) :
    updateProgress data s = updateProgress_line769 s := rfl

/-- The declaration of line 448 would display the overall percentage. -/
theorem updateProgress_line448_overall (data : ProgressData) (s : App) (p : ℚ)
    (hid : data.job_id.truthy = true) (hp : data.overall_progress = some p) :
    (updateProgress_line448 data s).overallProgress_width = some p ∧
    (updateProgress_line448 data s).overallText = toString (mathRound p) ++ "%" := by
  simp only [updateProgress_line448, hid, hp, if_true]
  constructor <;> (repeat' split) <;> rfl

/-- The declaration of line 448 is a merge: an absent property leaves the display
it controls as it was, and nothing of the audio player is written. -/
theorem updateProgress_line448_merge (data : ProgressData) (s : App) :
    (data.status = none → data.current_file = none →
      (updateProgress_line448 data s).statusText = s.statusText) ∧
    (data.device = none →
      (updateProgress_line448 data s).deviceStatus = s.deviceStatus) ∧
    (data.overall_progress = none →
      (updateProgress_line448 data s).overallProgress_width = s.overallProgress_width ∧
      (updateProgress_line448 data s).overallText = s.overallText) ∧
    (data.file_progress = none →
      (updateProgress_line448 data s).fileProgress_width = s.fileProgress_width ∧
      (updateProgress_line448 data s).fileText = s.fileText) ∧
    (updateProgress_line448 data s).progressSlider_value = s.progressSlider_value ∧
    (updateProgress_line448 data s).currentTime = s.currentTime ∧
    (updateProgress_line448 data s).stemsPlayer = s.stemsPlayer := by
  obtain ⟨jid, st, dev, ov, fp, cf⟩ := data
  by_cases hid : jid.truthy = true
  · rcases st with _ | st <;> rcases dev with _ | dev <;> rcases ov with _ | ov <;>
      rcases fp with _ | fp <;> rcases cf with _ | cf <;>
      simp only [updateProgress_line448, hid, if_true] <;>
      (try split_ifs) <;> simp
  · simp [updateProgress_line448, hid]

/-- The handler of `processing_update` never writes the overall bar or its text. -/
theorem on_processing_update_overall (data : ProgressData) (s : App) :
    (on_processing_update data s).overallProgress_width = s.overallProgress_width ∧
    (on_processing_update data s).overallText = s.overallText := by
  unfold on_processing_update
  split
  · rw [updateProgress_eq_line769]
    unfold updateProgress_line769
    split
    · exact ⟨rfl, rfl⟩
    · split
      · exact ⟨rfl, rfl⟩
      · exact ⟨rfl, rfl⟩
  · exact ⟨rfl, rfl⟩

/-- C2 (the code at the failing input). After the scenario has made "abc" the
active job, the event `processing_update {job_id: "abc", overall_progress: 42}`
leaves the state as it was: the overall bar is still unset and the overall text
still empty, not 42. -/
theorem overall_progress_not_displayed :
    (run scenarioStart App.initial).currentJobId = .str "abc" ∧
    step (.processing_update snapshot42) (run scenarioStart App.initial)
      = run scenarioStart App.initial ∧
    (step (.processing_update snapshot42) (run scenarioStart App.initial)).overallProgress_width
      = none ∧
    (step (.processing_update snapshot42) (run scenarioStart App.initial)).overallText = "" := by
  refine ⟨rfl, rfl, rfl, rfl⟩

/-! ### C3: an accepted snapshot and the audio player -/

theorem floor_30_div_60 : Int.floor ((30 : ℚ) / 60) = 0 := by
  rw [Int.floor_eq_iff]; norm_num

theorem jsRem_30_60 : jsRem 30 60 = 30 := by
  simp [jsRem, floor_30_div_60]
  norm_num

theorem formatTime_30 : formatTime (some 30) = "0:30" := by
  have h30 : Int.floor (30 : ℚ) = 30 := by
    rw [Int.floor_eq_iff]; norm_num
  simp only [formatTime, jsRem_30_60, floor_30_div_60, h30]
  decide

/-- What the declaration of line 769 writes when the audio element has a duration. -/
theorem updateProgress_line769_writes (s : App) (d : ℚ)
    (hd : s.audio_duration = some d) (hd0 : d ≠ 0) :
    (updateProgress_line769 s).progressSlider_value = s.audio_currentTime / d * 100 ∧
    (updateProgress_line769 s).currentTime = formatTime (some s.audio_currentTime) ∧
    (updateProgress_line769 s).stemsPlayer =
      forEachIdx (fun i p =>
        if (i : Int) = s.currentTrackIndex then
          { p with
            progress_width := some (s.audio_currentTime / d * 100),
            time := if s.audio_currentTime ≠ 0 then formatTime (some s.audio_currentTime)
              else p.time }
        else p) 0 s.stemsPlayer ∧
    (updateProgress_line769 s).statusText = s.statusText := by
  simp only [updateProgress_line769, hd, hd0, if_false]
  exact ⟨rfl, rfl, rfl, rfl⟩

theorem scenarioPlayback_audio :
    (run scenarioPlayback App.initial).audio_duration = some 60 ∧
    (run scenarioPlayback App.initial).audio_currentTime = 30 ∧
    (run scenarioPlayback App.initial).currentTrackIndex = 0 := by
  refine ⟨rfl, ?_, rfl⟩
  show (50 : ℚ) / 100 * 60 = 30
  norm_num

/-- C3 (the code at the failing input). A job "def" is in flight while a stem of
the earlier job is loaded in the player, 30 seconds into a track of 60. The
accepted snapshot `{job_id: "def", status: "Separating"}` leaves the status text
as it was and writes the audio player: the current-time text goes from empty to
"0:30", the bar of the stem from unset to 50 percent and its time from "0:00"
to "0:30". -/
theorem snapshot_writes_audio_player :
    (run scenarioPlayback App.initial).currentJobId = snapshotStatus.job_id ∧
    (run scenarioPlayback App.initial).statusText = "" ∧
    (run scenarioPlayback App.initial).currentTime = "" ∧
    (run scenarioPlayback App.initial).stemsPlayer = [⟨vocals, .pause, true, none, "0:00"⟩] ∧
    (step (.processing_update snapshotStatus) (run scenarioPlayback App.initial)).statusText = "" ∧
    (step (.processing_update snapshotStatus) (run scenarioPlayback App.initial)).currentTime
      = "0:30" ∧
    (step (.processing_update snapshotStatus) (run scenarioPlayback App.initial)).stemsPlayer
      = [⟨vocals, .pause, true, some 50, "0:30"⟩] := by
  have hstep : step (.processing_update snapshotStatus) (run scenarioPlayback App.initial)
      = updateProgress_line769 (run scenarioPlayback App.initial) := rfl
  obtain ⟨hd, ht, hi⟩ := scenarioPlayback_audio
  obtain ⟨_, hcur, hstems, hstatus⟩ :=
    updateProgress_line769_writes (run scenarioPlayback App.initial) 60 hd (by norm_num)
  have hplayers : (run scenarioPlayback App.initial).stemsPlayer
      = [⟨vocals, .pause, true, none, "0:00"⟩] := by decide
  refine ⟨rfl, rfl, rfl, hplayers, ?_, ?_, ?_⟩
  · rw [hstep, hstatus]; rfl
  · rw [hstep, hcur, ht, formatTime_30]
  · rw [hstep, hstems, ht, hi, hplayers, formatTime_30]
    have h50 : (30 : ℚ) / 60 * 100 = 50 := by norm_num
    simp [forEachIdx, h50]

/-! ### C4: a duplicate by (name, size) is dropped -/

theorem pushUnlessPresent_of_present (uploaded : List File) (file : File)
    (h : ∃ g ∈ uploaded, g.name = file.name ∧ g.size = file.size) :
    pushUnlessPresent uploaded file = uploaded := by
  obtain ⟨g, hg, hname, hsize⟩ := h
  unfold pushUnlessPresent
  rw [if_pos]
  rw [List.find?_isSome]
  exact ⟨g, hg, by simp [hname, hsize]⟩

/-- C4. If the uploaded files already hold an entry with the name and the byte
size of an audio file `f`, then `addFiles([f])` leaves the list of uploaded
files as it was (so its length too) and produces no effect at all, hence no
error notification. -/
theorem addFiles_duplicate_dropped (s : App) (f : File)
    (hf : isAudioFile f = true)
    (hdup : ∃ g ∈ s.uploadedFiles, g.name = f.name ∧ g.size = f.size) :
    (addFiles [f] s).uploadedFiles = s.uploadedFiles ∧
    (addFiles [f] s).uploadedFiles.length = s.uploadedFiles.length ∧
    (addFiles [f] s).effects = s.effects := by
  have hpush := pushUnlessPresent_of_present s.uploadedFiles f hdup
  have hadd : (addFiles [f] s).uploadedFiles = s.uploadedFiles ∧
      (addFiles [f] s).effects = s.effects := by
    simp only [addFiles, List.filter_cons, hf, if_true, List.filter_nil, List.length_singleton,
      one_ne_zero, if_false, List.foldl_cons, List.foldl_nil, hpush]
    unfold updateProcessButton updateFileList
    split <;> exact ⟨rfl, rfl⟩
  exact ⟨hadd.1, by rw [hadd.1], hadd.2⟩

/-- C4 at the scenario: `track.wav` is added a second time. -/
theorem addFiles_duplicate_dropped_witness :
    isAudioFile trackWav = true ∧
    (∃ g ∈ (run scenarioStart App.initial).uploadedFiles,
      g.name = trackWav.name ∧ g.size = trackWav.size) ∧
    (addFiles [trackWav] (run scenarioStart App.initial)).uploadedFiles.length = 1 :=
  ⟨by decide, ⟨trackWav, by decide, rfl, rfl⟩,
   (addFiles_duplicate_dropped (run scenarioStart App.initial) trackWav (by decide)
      ⟨trackWav, by decide, rfl, rfl⟩).2.1⟩

/-! ### C5: submission with no file -/

/-- C5. With no uploaded file, `startProcessing` only appends one notification of
type error: no request and no socket emission is made (the effects grow by that
notification alone), and every other field, among them `currentJobId`,
`isProcessing`, `keepAliveInterval` and the running timers, is as before. -/
theorem startProcessing_no_files (s : App) (upload : UploadOutcome) (process : ProcessOutcome)
    (h : s.uploadedFiles = []) :
    startProcessing upload process s
      = { s with effects := s.effects ++ [.notify "Please select audio files first" .error] } := by
  simp [startProcessing, h, showNotification, emitEffect]

/-- C5 at the initial state. -/
theorem startProcessing_no_files_witness :
    App.initial.uploadedFiles = [] ∧
    (startProcessing (.ok (.str "abc")) .ok App.initial).effects
      = [.notify "Please select audio files first" .error] ∧
    (startProcessing (.ok (.str "abc")) .ok App.initial).currentJobId = .null :=
  ⟨rfl,
   by rw [startProcessing_no_files App.initial (.ok (.str "abc")) .ok rfl]; rfl,
   by rw [startProcessing_no_files App.initial (.ok (.str "abc")) .ok rfl]; rfl⟩

/-! ### C6 to C8: submission with files -/

theorem length_ne_zero_of_ne_nil {α : Type} (xs : List α) (h : xs ≠ []) : ¬ xs.length = 0 := by
  intro h0
  exact h (List.length_eq_zero.mp h0)

/-- C6. With at least one uploaded file, an upload that answers `{job_id: j}` and
a process start that succeeds, `startProcessing` leaves `currentJobId = j`
whatever it was, has emitted `join_job` with `j` and then sent `/process` with
`j` and the settings read from the page (the volume boost as a number, the noise
reduction as a boolean), has set `isProcessing`, and holds in
`keepAliveInterval` the id of a timer that is running. -/
theorem startProcessing_success (s : App) (j : JSVal) (h : s.uploadedFiles ≠ []) :
    (startProcessing (.ok j) .ok s).currentJobId = j ∧
    (startProcessing (.ok j) .ok s).effects
      = s.effects ++
        [.notify "Uploading files..." .info,
         .fetchUpload s.uploadedFiles,
         .emitJoinJob j,
         .fetchProcess j (settingsOf s),
         .notify "Processing started..." .success] ∧
    (startProcessing (.ok j) .ok s).isProcessing = true ∧
    (startProcessing (.ok j) .ok s).keepAliveInterval = some (s.timerSeq + 1) ∧
    s.timerSeq + 1 ∈ (startProcessing (.ok j) .ok s).intervals := by
  have hlen := length_ne_zero_of_ne_nil _ h
  simp [startProcessing, hlen, startProcessingStarted, showNotification, emitEffect,
    setInterval, settingsOf]

/-- C6 at the scenario: `track.wav` selected, upload answers "abc". -/
theorem startProcessing_success_witness :
    (addFiles [trackWav] App.initial).uploadedFiles ≠ [] ∧
    (startProcessing (.ok (.str "abc")) .ok (addFiles [trackWav] App.initial)).currentJobId
      = .str "abc" ∧
    (startProcessing (.ok (.str "abc")) .ok (addFiles [trackWav] App.initial)).isProcessing
      = true :=
  ⟨by decide,
   (startProcessing_success (addFiles [trackWav] App.initial) (.str "abc") (by decide)).1,
   (startProcessing_success (addFiles [trackWav] App.initial) (.str "abc") (by decide)).2.2.1⟩

/-- C7. With at least one uploaded file and an upload that fails (the request
rejects, the response is not ok, or its body cannot be read), `startProcessing`
only appends three effects: the "Uploading" notice, the `/upload` request and
one notification of type error. No `join_job` and no `/process` follow, and
every other field is as before: `currentJobId`, `isProcessing` (so it stays
false if it was), `keepAliveInterval` and the running timers. -/
theorem startProcessing_upload_failure (s : App) (upload : UploadOutcome)
    (process : ProcessOutcome) (h : s.uploadedFiles ≠ []) (hup : ∀ j, upload ≠ .ok j) :
    startProcessing upload process s
      = { s with effects := s.effects ++
            [.notify "Uploading files..." .info,
             .fetchUpload s.uploadedFiles,
             .notify ("Error: " ++ uploadErrorMessage upload) .error] } := by
  have hlen := length_ne_zero_of_ne_nil _ h
  cases upload with
  | ok j => exact absurd rfl (hup j)
  | rejected message =>
    simp [startProcessing, hlen, startProcessingCatch, showNotification, emitEffect,
      uploadErrorMessage]
  | notOk =>
    simp [startProcessing, hlen, startProcessingCatch, showNotification, emitEffect,
      uploadErrorMessage]
  | badBody message =>
    simp [startProcessing, hlen, startProcessingCatch, showNotification, emitEffect,
      uploadErrorMessage]

/-- C7 at the scenario: the upload of `track.wav` answers with a status that is not ok. -/
theorem startProcessing_upload_failure_witness :
    (addFiles [trackWav] App.initial).uploadedFiles ≠ [] ∧
    (∀ j, UploadOutcome.notOk ≠ .ok j) ∧
    (startProcessing .notOk .ok (addFiles [trackWav] App.initial)).currentJobId = .null ∧
    (startProcessing .notOk .ok (addFiles [trackWav] App.initial)).isProcessing = false ∧
    (startProcessing .notOk .ok (addFiles [trackWav] App.initial)).intervals = [] ∧
    (startProcessing .notOk .ok (addFiles [trackWav] App.initial)).effects
      = [.notify "Uploading files..." .info, .fetchUpload [trackWav],
         .notify "Error: Upload failed" .error] := by
  have hw := startProcessing_upload_failure (addFiles [trackWav] App.initial) .notOk .ok
    (by decide) (fun j hj => UploadOutcome.noConfusion hj)
  refine ⟨by decide, fun j hj => UploadOutcome.noConfusion hj, ?_, ?_, ?_, ?_⟩ <;> rw [hw] <;> rfl

/-- C8. With at least one uploaded file, an upload that answers `{job_id: j}` and
a process start that fails, `startProcessing` sets `currentJobId` to `j`, appends
the effects up to the `/process` request and one notification of type error,
and changes nothing else: `isProcessing` is as before (false when the client
was not processing) and no timer is started. -/
theorem startProcessing_process_failure (s : App) (j : JSVal) (process : ProcessOutcome)
    (h : s.uploadedFiles ≠ []) (hpr : process ≠ .ok) :
    startProcessing (.ok j) process s
      = { s with
          currentJobId := j,
          effects := s.effects ++
            [.notify "Uploading files..." .info,
             .fetchUpload s.uploadedFiles,
             .emitJoinJob j,
             .fetchProcess j (settingsOf s),
             .notify ("Error: " ++ processErrorMessage process) .error] } ∧
    (startProcessing (.ok j) process s).currentJobId = j ∧
    (s.isProcessing = false → (startProcessing (.ok j) process s).isProcessing = false) ∧
    (startProcessing (.ok j) process s).keepAliveInterval = s.keepAliveInterval ∧
    (startProcessing (.ok j) process s).intervals = s.intervals := by
  have hlen := length_ne_zero_of_ne_nil _ h
  cases process with
  | ok => exact absurd rfl hpr
  | rejected message =>
    simp [startProcessing, hlen, startProcessingCatch, showNotification, emitEffect,
      processErrorMessage, settingsOf]
  | notOk =>
    simp [startProcessing, hlen, startProcessingCatch, showNotification, emitEffect,
      processErrorMessage, settingsOf]

/-- C8 at the scenario: the upload answers "abc", the process start is not ok. -/
theorem startProcessing_process_failure_witness :
    (addFiles [trackWav] App.initial).uploadedFiles ≠ [] ∧
    ProcessOutcome.notOk ≠ .ok ∧
    (startProcessing (.ok (.str "abc")) .notOk (addFiles [trackWav] App.initial)).currentJobId
      = .str "abc" ∧
    (startProcessing (.ok (.str "abc")) .notOk (addFiles [trackWav] App.initial)).isProcessing
      = false :=
  ⟨by decide, by decide,
   (startProcessing_process_failure (addFiles [trackWav] App.initial) (.str "abc") .notOk
      (by decide) (by decide)).2.1,
   (startProcessing_process_failure (addFiles [trackWav] App.initial) (.str "abc") .notOk
      (by decide) (by decide)).2.2.1 rfl⟩

/-! ### C9: the keep-alive timer after completion -/

/-- What `handleProcessingComplete` does for the timer it knows: the timer held
in `keepAliveInterval` (a positive id) is stopped and the field is emptied;
`isProcessing` is false and the download handler opens the url of the event. -/
theorem handleProcessingComplete_clears_held_timer (data : CompleteData) (s : App) :
    (handleProcessingComplete data s).isProcessing = false ∧
    (handleProcessingComplete data s).downloadBtn_onclick = some data.download_url ∧
    (s.keepAliveInterval ≠ some 0 → (handleProcessingComplete data s).keepAliveInterval = none) ∧
    (∀ id, id ≠ 0 → s.keepAliveInterval = some id →
      id ∉ (handleProcessingComplete data s).intervals) := by
  cases hk : s.keepAliveInterval with
  | none =>
    simp [handleProcessingComplete, clearKeepAlive, hk, updateProcessButton, showNotification,
      emitEffect]
  | some t =>
    by_cases ht : t = 0
    · subst ht
      simp [handleProcessingComplete, clearKeepAlive, hk, updateProcessButton, showNotification,
        emitEffect]
      intro id hid h0
      exact absurd h0.symm hid
    · simp [handleProcessingComplete, clearKeepAlive, hk, ht, clearInterval, updateProcessButton,
        showNotification, emitEffect]
      intro id _ h _
      exact h.symm

/-- After one successful submission, the completion of the job leaves no timer running. -/
theorem keepAlive_cleared_after_single_start :
    (run (scenarioStart ++ [.processing_complete ⟨.str "abc", 1, "3s", "/d/abc"⟩])
      App.initial).intervals = [] := by
  decide

/-- C9 (the code at the failing input). After two successful submissions and the
completion of the active job "def", `isProcessing` is false, the download
handler opens "/d/def" and `keepAliveInterval` is empty, but timer 1, started
by the first submission, is still running: when it fires, the client emits
another `ping`. -/
theorem keepAlive_timer_survives_completion :
    (run scenarioDoubleStart App.initial).isProcessing = false ∧
    (run scenarioDoubleStart App.initial).downloadBtn_onclick = some "/d/def" ∧
    (run scenarioDoubleStart App.initial).keepAliveInterval = none ∧
    (run scenarioDoubleStart App.initial).intervals = [1] ∧
    (step (.keepAliveTick 1) (run scenarioDoubleStart App.initial)).effects
      = (run scenarioDoubleStart App.initial).effects ++ [.emitPing] := by
  refine ⟨rfl, rfl, rfl, by decide, by decide⟩

/-! ### C10: `currentJobId` is written by `startProcessing` alone -/

theorem emitEffect_currentJobId (e : Effect) (s : App) :
    (emitEffect e s).currentJobId = s.currentJobId := rfl

theorem showNotification_currentJobId (m : String) (t : NoticeType) (s : App) :
    (showNotification m t s).currentJobId = s.currentJobId := rfl

theorem updateProcessButton_currentJobId (s : App) :
    (updateProcessButton s).currentJobId = s.currentJobId := rfl

theorem updateFileList_currentJobId (s : App) :
    (updateFileList s).currentJobId = s.currentJobId := by
  unfold updateFileList; split <;> rfl

theorem clearKeepAlive_currentJobId (s : App) :
    (clearKeepAlive s).currentJobId = s.currentJobId := by
  unfold clearKeepAlive
  split
  · split <;> rfl
  · rfl

theorem handleProcessingStop_currentJobId (s : App) :
    (handleProcessingStop s).currentJobId = s.currentJobId := by
  simp [handleProcessingStop, clearKeepAlive_currentJobId, updateProcessButton_currentJobId]

theorem handleProcessingComplete_currentJobId (data : CompleteData) (s : App) :
    (handleProcessingComplete data s).currentJobId = s.currentJobId := by
  simp [handleProcessingComplete, emitEffect_currentJobId, showNotification_currentJobId,
    updateProcessButton_currentJobId, clearKeepAlive_currentJobId]

theorem updateStemPlayButton_currentJobId (i : Int) (b : Bool) (s : App) :
    (updateStemPlayButton i b s).currentJobId = s.currentJobId := rfl

theorem updateStemProgress_currentJobId (i : Int) (p : ℚ) (s : App) :
    (updateStemProgress i p s).currentJobId = s.currentJobId := rfl

theorem updateAudioProgress_currentJobId (s : App) :
    (updateAudioProgress s).currentJobId = s.currentJobId := by
  unfold updateAudioProgress
  split
  · rfl
  · split <;> rfl

theorem updateProgress_currentJobId (data : ProgressData) (s : App) :
    (updateProgress data s).currentJobId = s.currentJobId := by
  rw [updateProgress_eq_line769]
  unfold updateProgress_line769
  split
  · rfl
  · split <;> rfl

theorem loadTrack_currentJobId (i : Int) (s : App) :
    (loadTrack i s).currentJobId = s.currentJobId := by
  unfold loadTrack
  split
  · rfl
  · split <;> rfl

theorem playAudio_currentJobId (s : App) : (playAudio s).currentJobId = s.currentJobId := rfl

theorem pauseAudio_currentJobId (s : App) : (pauseAudio s).currentJobId = s.currentJobId := rfl

theorem addFiles_currentJobId (files : List File) (s : App) :
    (addFiles files s).currentJobId = s.currentJobId := by
  dsimp only [addFiles]
  split
  · rfl
  · rw [updateProcessButton_currentJobId, updateFileList_currentJobId]

theorem loadStemsForPlayback_currentJobId (out : StemsOutcome) (s : App) :
    (loadStemsForPlayback out s).currentJobId = s.currentJobId := by
  dsimp only [loadStemsForPlayback]
  repeat' split
  all_goals rfl

theorem loadTrack_then_play_currentJobId (i : Int) (s : App) :
    (if (loadTrack i s).isPlaying = true then playAudio (loadTrack i s)
      else loadTrack i s).currentJobId = s.currentJobId := by
  split
  · rw [playAudio_currentJobId, loadTrack_currentJobId]
  · rw [loadTrack_currentJobId]

theorem previousTrack_currentJobId (s : App) :
    (previousTrack s).currentJobId = s.currentJobId := by
  dsimp only [previousTrack]
  exact loadTrack_then_play_currentJobId _ s

theorem nextTrack_currentJobId (s : App) :
    (nextTrack s).currentJobId = s.currentJobId := by
  dsimp only [nextTrack]
  exact loadTrack_then_play_currentJobId _ s

/-- The value `startProcessing` leaves in `currentJobId`: the `job_id` of the
upload response when there were files and the upload succeeded, else the old value. -/
theorem startProcessing_currentJobId (upload : UploadOutcome) (process : ProcessOutcome)
    (s : App) :
    (startProcessing upload process s).currentJobId =
      match upload with
      | .ok j => if s.uploadedFiles.length = 0 then s.currentJobId else j
      | _ => s.currentJobId := by
  unfold startProcessing
  by_cases hlen : s.uploadedFiles.length = 0
  · simp [hlen, showNotification_currentJobId]
    cases upload <;> simp
  · cases upload <;> cases process <;>
      simp [hlen, startProcessingCatch, startProcessingStarted, showNotification, emitEffect,
        setInterval]

/-- C10. Every operation other than `startProcessing` leaves `currentJobId` as it
was: the three job events (so completion, error and stop do not clear it),
`stopProcessing`, `handleProcessingStop`, `addFiles`, `removeFile`,
`clearFiles`, `reconnect`, the timer and every playback operation. One call of
`startProcessing` leaves either the old value or the `job_id` of its upload
response, the latter exactly when there were files and the upload succeeded. -/
theorem currentJobId_written_only_by_startProcessing (op : Op) (s : App) :
    ((∀ upload process, op ≠ .startProcessing upload process) →
      (step op s).currentJobId = s.currentJobId) ∧
    (∀ upload process, op = .startProcessing upload process →
      (step op s).currentJobId =
        match upload with
        | .ok j => if s.uploadedFiles.length = 0 then s.currentJobId else j
        | _ => s.currentJobId) := by
  constructor
  · intro hne
    cases op with
    | startProcessing upload process => exact absurd rfl (hne upload process)
    | addFiles files => exact addFiles_currentJobId files s
    | removeFile index =>
      simp [step, removeFile, updateProcessButton_currentJobId, updateFileList_currentJobId]
    | clearFiles =>
      simp [step, clearFiles, updateProcessButton_currentJobId, updateFileList_currentJobId]
    | stopProcessing stop =>
      simp only [step, stopProcessing]
      split
      · rfl
      · cases stop with
        | resolved => simp [handleProcessingStop_currentJobId, emitEffect_currentJobId]
        | rejected message => rfl
    | handleProcessingStop => exact handleProcessingStop_currentJobId s
    | connect => rfl
    | disconnect => rfl
    | processing_update data =>
      simp only [step, on_processing_update]
      split
      · exact updateProgress_currentJobId data s
      · rfl
    | processing_complete data =>
      simp only [step, on_processing_complete]
      split
      · exact handleProcessingComplete_currentJobId data s
      · rfl
    | processing_error data =>
      simp only [step, on_processing_error]
      split
      · simp [handleProcessingError, showNotification_currentJobId,
          handleProcessingStop_currentJobId]
      · rfl
    | reconnect =>
      simp only [step, on_reconnect]
      split <;> rfl
    | keepAliveTick id =>
      simp only [step, keepAliveTick]
      repeat' split
      all_goals rfl
    | downloadClick =>
      simp only [step, downloadClick]
      split <;> rfl
    | newProcessClick =>
      simp [step, newProcessClick, clearFiles, updateProcessButton_currentJobId,
        updateFileList_currentJobId]
    | loadStemsForPlayback out => exact loadStemsForPlayback_currentJobId out s
    | playStem index =>
      simp [step, playStem, playAudio_currentJobId, loadTrack_currentJobId]
    | loadTrack index => exact loadTrack_currentJobId index s
    | togglePlayPause =>
      simp only [step, togglePlayPause]
      split <;> rfl
    | playAudio => rfl
    | pauseAudio => rfl
    | stopAudio => rfl
    | previousTrack => exact previousTrack_currentJobId s
    | nextTrack => exact nextTrack_currentJobId s
    | seekAudio value =>
      simp only [step, seekAudio]
      split <;> rfl
    | updateVolume value => rfl
    | loadedmetadata duration => rfl
    | timeupdate time =>
      simp only [step]
      rw [updateAudioProgress_currentJobId]
    | ended => exact nextTrack_currentJobId s
    | closeAudioPlayer => rfl
  · intro upload process hop
    subst hop
    exact startProcessing_currentJobId upload process s

/-- C10 at the scenario: the completion of job "abc" leaves "abc" in
`currentJobId`, and the submission that answered "abc" had written it. -/
theorem currentJobId_written_only_by_startProcessing_witness :
    (∀ upload process,
      Op.processing_complete ⟨.str "abc", 1, "3s", "/d/abc"⟩ ≠ .startProcessing upload process) ∧
    (step (.processing_complete ⟨.str "abc", 1, "3s", "/d/abc"⟩)
      (run scenarioStart App.initial)).currentJobId = .str "abc" ∧
    (step (.startProcessing (.ok (.str "abc")) .ok)
      (run [.connect, .addFiles [trackWav]] App.initial)).currentJobId = .str "abc" :=
  ⟨fun _ _ h => Op.noConfusion h,
   (currentJobId_written_only_by_startProcessing
      (.processing_complete ⟨.str "abc", 1, "3s", "/d/abc"⟩)
      (run scenarioStart App.initial)).1 (fun _ _ h => Op.noConfusion h),
   (currentJobId_written_only_by_startProcessing
      (.startProcessing (.ok (.str "abc")) .ok)
      (run [.connect, .addFiles [trackWav]] App.initial)).2 _ _ rfl⟩

/-! ### C11: a snapshot that arrives after an explicit stop -/

/-- The fields that the bound `updateProgress` leaves alone: the job, the
controls, the timers, the files and the effects. -/
theorem updateProgress_frame (data : ProgressData) (s : App) :
    (updateProgress data s).currentJobId = s.currentJobId ∧
    (updateProgress data s).isProcessing = s.isProcessing ∧
    (updateProgress data s).keepAliveInterval = s.keepAliveInterval ∧
    (updateProgress data s).intervals = s.intervals ∧
    (updateProgress data s).uploadedFiles = s.uploadedFiles ∧
    (updateProgress data s).processBtn_display = s.processBtn_display ∧
    (updateProgress data s).stopBtn_display = s.stopBtn_display ∧
    (updateProgress data s).processBtn_disabled = s.processBtn_disabled ∧
    (updateProgress data s).effects = s.effects := by
  rw [updateProgress_eq_line769]
  unfold updateProgress_line769
  split
  · exact ⟨rfl, rfl, rfl, rfl, rfl, rfl, rfl, rfl, rfl⟩
  · split
    · exact ⟨rfl, rfl, rfl, rfl, rfl, rfl, rfl, rfl, rfl⟩
    · exact ⟨rfl, rfl, rfl, rfl, rfl, rfl, rfl, rfl, rfl⟩

/-- What a resolved `stopProcessing` leaves when there is an active job. -/
theorem stopProcessing_resolved_state (s : App) (h : s.currentJobId.truthy = true) :
    (stopProcessing .resolved s).currentJobId = s.currentJobId ∧
    (stopProcessing .resolved s).isProcessing = false ∧
    (stopProcessing .resolved s).effects = s.effects ++ [.fetchStop s.currentJobId] := by
  have hs : stopProcessing .resolved s
      = handleProcessingStop (emitEffect (.fetchStop s.currentJobId) s) := by
    simp [stopProcessing, h]
  rw [hs]
  refine ⟨handleProcessingStop_currentJobId _, ?_, ?_⟩
  · unfold handleProcessingStop clearKeepAlive
    split
    · split <;> rfl
    · rfl
  · unfold handleProcessingStop clearKeepAlive
    split
    · split <;> rfl
    · rfl

/-- C11 (counterexample). Job "def" has been stopped by the user (`isProcessing`
is false, `currentJobId` is still "def"); the later event
`processing_update {job_id: "def", status: "Separating"}` changes the state:
the current-time text of the player goes from empty to "0:30". -/
theorem update_after_stop_changes_state :
    (run scenarioStopped App.initial).isProcessing = false ∧
    (run scenarioStopped App.initial).currentJobId = snapshotStatus.job_id ∧
    (run scenarioStopped App.initial).currentTime = "" ∧
    (step (.processing_update snapshotStatus) (run scenarioStopped App.initial)).currentTime
      = "0:30" ∧
    step (.processing_update snapshotStatus) (run scenarioStopped App.initial)
      ≠ run scenarioStopped App.initial := by
  have hstep : step (.processing_update snapshotStatus) (run scenarioStopped App.initial)
      = updateProgress_line769 (run scenarioStopped App.initial) := rfl
  have hd : (run scenarioStopped App.initial).audio_duration = some 60 := rfl
  have ht : (run scenarioStopped App.initial).audio_currentTime = 30 := by
    show (50 : ℚ) / 100 * 60 = 30
    norm_num
  obtain ⟨_, hcur, _, _⟩ :=
    updateProgress_line769_writes (run scenarioStopped App.initial) 60 hd (by norm_num)
  have hafter : (step (.processing_update snapshotStatus)
      (run scenarioStopped App.initial)).currentTime = "0:30" := by
    rw [hstep, hcur, ht, formatTime_30]
  refine ⟨rfl, rfl, rfl, hafter, fun heq => ?_⟩
  have hbefore : (run scenarioStopped App.initial).currentTime = "" := rfl
  rw [heq, hbefore] at hafter
  exact absurd hafter (by decide)

/-- C11 (amended). After a resolved `stopProcessing` of the active job,
`currentJobId` still holds its id and `isProcessing` is false; a later
`processing_update` with that id passes the guard and is handed to
`updateProgress`. Handling it leaves `currentJobId`, `isProcessing`, the
keep-alive field, the running timers, the uploaded files, the two control
buttons and the effects (no notification, no request) as they were. -/
theorem update_after_stop_accepted (s : App) (data : ProgressData)
    (hactive : s.currentJobId.truthy = true) (hid : data.job_id = s.currentJobId) :
    (stopProcessing .resolved s).currentJobId = s.currentJobId ∧
    (stopProcessing .resolved s).isProcessing = false ∧
    step (.processing_update data) (stopProcessing .resolved s)
      = updateProgress data (stopProcessing .resolved s) ∧
    (step (.processing_update data) (stopProcessing .resolved s)).currentJobId
      = s.currentJobId ∧
    (step (.processing_update data) (stopProcessing .resolved s)).isProcessing = false ∧
    (step (.processing_update data) (stopProcessing .resolved s)).keepAliveInterval
      = (stopProcessing .resolved s).keepAliveInterval ∧
    (step (.processing_update data) (stopProcessing .resolved s)).intervals
      = (stopProcessing .resolved s).intervals ∧
    (step (.processing_update data) (stopProcessing .resolved s)).uploadedFiles
      = (stopProcessing .resolved s).uploadedFiles ∧
    (step (.processing_update data) (stopProcessing .resolved s)).processBtn_display
      = (stopProcessing .resolved s).processBtn_display ∧
    (step (.processing_update data) (stopProcessing .resolved s)).stopBtn_display
      = (stopProcessing .resolved s).stopBtn_display ∧
    (step (.processing_update data) (stopProcessing .resolved s)).effects
      = (stopProcessing .resolved s).effects := by
  obtain ⟨hjob, hproc, _⟩ := stopProcessing_resolved_state s hactive
  have hstep : step (.processing_update data) (stopProcessing .resolved s)
      = updateProgress data (stopProcessing .resolved s) := by
    simp [step, on_processing_update, strictEq, hid, hjob]
  obtain ⟨f1, f2, f3, f4, f5, f6, f7, _, f9⟩ :=
    updateProgress_frame data (stopProcessing .resolved s)
  rw [hstep]
  exact ⟨hjob, hproc, rfl, f1.trans hjob, f2.trans hproc, f3, f4, f5, f6, f7, f9⟩

/-- C11 (amended) at the scenario: job "def" stopped, then a snapshot for "def". -/
theorem update_after_stop_accepted_witness :
    (run scenarioPlayback App.initial).currentJobId.truthy = true ∧
    snapshotStatus.job_id = (run scenarioPlayback App.initial).currentJobId ∧
    (step (.processing_update snapshotStatus)
      (stopProcessing .resolved (run scenarioPlayback App.initial))).isProcessing = false ∧
    (step (.processing_update snapshotStatus)
      (stopProcessing .resolved (run scenarioPlayback App.initial))).currentJobId = .str "def" :=
  ⟨by decide, rfl,
   (update_after_stop_accepted (run scenarioPlayback App.initial) snapshotStatus
      (by decide) rfl).2.2.2.2.1,
   (update_after_stop_accepted (run scenarioPlayback App.initial) snapshotStatus
      (by decide) rfl).2.2.2.1⟩

/-! ### Lemmas on the `forEach` loop of `addFiles` -/

theorem find_isSome_iff_key (uploaded : List File) (file : File) :
    (uploaded.find? (fun f => decide (f.name = file.name) && decide (f.size = file.size))).isSome
      = true ↔ fileKey file ∈ uploaded.map fileKey := by
  rw [List.find?_isSome, List.mem_map]
  constructor
  · rintro ⟨g, hg, hkey⟩
    simp only [Bool.and_eq_true, decide_eq_true_eq] at hkey
    exact ⟨g, hg, by simp [fileKey, hkey.1, hkey.2]⟩
  · rintro ⟨g, hg, hkey⟩
    simp only [fileKey, Prod.mk.injEq] at hkey
    exact ⟨g, hg, by simp [hkey.1, hkey.2]⟩

theorem pushUnlessPresent_key_mem (uploaded : List File) (file : File) :
    fileKey file ∈ (pushUnlessPresent uploaded file).map fileKey := by
  unfold pushUnlessPresent
  split
  · rename_i h
    exact (find_isSome_iff_key uploaded file).mp h
  · simp

theorem pushUnlessPresent_noDuplicateKeys (uploaded : List File) (file : File)
    (h : NoDuplicateKeys uploaded) : NoDuplicateKeys (pushUnlessPresent uploaded file) := by
  unfold pushUnlessPresent
  split
  · exact h
  · rename_i hnot
    have hkey : fileKey file ∉ uploaded.map fileKey := fun hmem =>
      hnot ((find_isSome_iff_key uploaded file).mpr hmem)
    unfold NoDuplicateKeys at *
    rw [List.map_append, List.nodup_append]
    refine ⟨h, by simp, ?_⟩
    intro k hk hk2
    simp only [List.map_cons, List.map_nil, List.mem_singleton] at hk2
    subst hk2
    exact hkey hk

theorem foldl_push_noDuplicateKeys (candidates : List File) :
    ∀ uploaded : List File, NoDuplicateKeys uploaded →
      NoDuplicateKeys (candidates.foldl pushUnlessPresent uploaded) := by
  induction candidates with
  | nil => intro uploaded h; exact h
  | cons c cs ih =>
    intro uploaded h
    exact ih _ (pushUnlessPresent_noDuplicateKeys uploaded c h)

theorem foldl_push_append (candidates : List File) :
    ∀ uploaded : List File, ∃ added : List File,
      candidates.foldl pushUnlessPresent uploaded = uploaded ++ added ∧
      added.Sublist candidates := by
  induction candidates with
  | nil => intro uploaded; exact ⟨[], by simp, List.Sublist.refl _⟩
  | cons c cs ih =>
    intro uploaded
    obtain ⟨added, hadd, hsub⟩ := ih (pushUnlessPresent uploaded c)
    by_cases hp : (uploaded.find?
        (fun f => decide (f.name = c.name) && decide (f.size = c.size))).isSome = true
    · have hpush : pushUnlessPresent uploaded c = uploaded := by
        unfold pushUnlessPresent; rw [if_pos hp]
      refine ⟨added, ?_, hsub.cons c⟩
      rw [List.foldl_cons, hpush]
      rw [hpush] at hadd
      exact hadd
    · have hpush : pushUnlessPresent uploaded c = uploaded ++ [c] := by
        unfold pushUnlessPresent; rw [if_neg hp]
      rw [hpush] at hadd
      refine ⟨c :: added, ?_, hsub.cons₂ c⟩
      rw [List.foldl_cons, hpush, hadd]
      simp

theorem foldl_push_key_mem (candidates : List File) :
    ∀ (uploaded : List File) (f : File), f ∈ candidates →
      fileKey f ∈ (candidates.foldl pushUnlessPresent uploaded).map fileKey := by
  induction candidates with
  | nil => intro uploaded f hf; cases hf
  | cons c cs ih =>
    intro uploaded f hf
    rw [List.foldl_cons]
    rcases List.mem_cons.mp hf with hfc | hfcs
    · subst hfc
      obtain ⟨added, hadd, _⟩ := foldl_push_append cs (pushUnlessPresent uploaded f)
      rw [hadd, List.map_append]
      exact List.mem_append_left _ (pushUnlessPresent_key_mem uploaded f)
    · exact ih _ f hfcs

/-- The list that `addFiles` leaves in `uploadedFiles`. -/
theorem addFiles_uploadedFiles (files : List File) (s : App) :
    (addFiles files s).uploadedFiles
      = (files.filter isAudioFile).foldl pushUnlessPresent s.uploadedFiles := by
  dsimp only [addFiles]
  split
  · rename_i h
    rw [List.length_eq_zero.mp h]
    rfl
  · unfold updateProcessButton updateFileList
    split <;> rfl

/-! ### C12: which candidates `addFiles` admits -/

/-- The fragments `type.split('/')[1]` that `addFiles` looks for in the media type. -/
theorem validTypes_fragments :
    validTypes.map (fun type => (splitAt type '/' 1).getD "undefined")
      = ["wav", "mp3", "mpeg", "flac", "ogg", "m4a", "aac"] := by
  decide

/-- The filter of `addFiles`, spelled out: the media type contains one of seven
fragments, or the lower-cased name ends in one of six extensions. -/
theorem isAudioFile_iff (f : File) :
    isAudioFile f = true ↔
      (∃ frag ∈ ["wav", "mp3", "mpeg", "flac", "ogg", "m4a", "aac"],
        includes f.type frag = true) ∨
      (∃ ext ∈ [".wav", ".mp3", ".flac", ".ogg", ".m4a", ".aac"],
        endsWith (toLowerCase f.name) ext = true) := by
  have hfrag : validTypes.any (fun type => includes f.type ((splitAt type '/' 1).getD "undefined"))
      = ["wav", "mp3", "mpeg", "flac", "ogg", "m4a", "aac"].any (fun frag => includes f.type frag) := by
    rw [← validTypes_fragments, List.any_map]
    rfl
  unfold isAudioFile
  rw [hfrag, Bool.or_eq_true, List.any_eq_true, List.any_eq_true]
  rfl

/-- C12 (counterexample). The candidate `clip.ogv` of media type "video/ogg" has
no allow-listed audio type and none of the six extensions, and `addFiles` adds
it to the uploaded files. -/
theorem addFiles_admits_video_ogg :
    allowListedAudioType clipOgv.type = false ∧
    hasAudioExtension clipOgv.name = false ∧
    isAudioFile clipOgv = true ∧
    (addFiles [clipOgv] App.initial).uploadedFiles = [clipOgv] := by
  decide

/-- C12 (amended). `addFiles` admits a candidate if and only if its media type
contains one of the fragments wav, mp3, mpeg, flac, ogg, m4a, aac, or its
lower-cased filename ends in one of .wav, .mp3, .flac, .ogg, .m4a, .aac. A file
in the uploaded set after `addFiles` was there before or is a candidate that
passes this test; a candidate that passes it has an entry with its name and
size in the uploaded set afterwards. -/
theorem addFiles_admits_iff (files : List File) (s : App) (f : File) :
    (isAudioFile f = true ↔
      (∃ frag ∈ ["wav", "mp3", "mpeg", "flac", "ogg", "m4a", "aac"],
        includes f.type frag = true) ∨
      (∃ ext ∈ [".wav", ".mp3", ".flac", ".ogg", ".m4a", ".aac"],
        endsWith (toLowerCase f.name) ext = true)) ∧
    (f ∈ (addFiles files s).uploadedFiles →
      f ∈ s.uploadedFiles ∨ (f ∈ files ∧ isAudioFile f = true)) ∧
    (f ∈ files → isAudioFile f = true →
      ∃ g ∈ (addFiles files s).uploadedFiles, g.name = f.name ∧ g.size = f.size) := by
  refine ⟨isAudioFile_iff f, fun hmem => ?_, fun hf haudio => ?_⟩
  · rw [addFiles_uploadedFiles] at hmem
    obtain ⟨added, hadd, hsub⟩ := foldl_push_append (files.filter isAudioFile) s.uploadedFiles
    rw [hadd] at hmem
    rcases List.mem_append.mp hmem with h | h
    · exact Or.inl h
    · have := List.mem_filter.mp (hsub.subset h)
      exact Or.inr ⟨this.1, this.2⟩
  · rw [addFiles_uploadedFiles]
    have hkey := foldl_push_key_mem (files.filter isAudioFile) s.uploadedFiles f
      (List.mem_filter.mpr ⟨hf, haudio⟩)
    obtain ⟨g, hg, hgk⟩ := List.mem_map.mp hkey
    simp only [fileKey, Prod.mk.injEq] at hgk
    exact ⟨g, hg, hgk.1, hgk.2⟩

/-- C12 (amended) at two candidates: `track.wav` is admitted and present
afterwards, and `notes.txt`, present afterwards, must have been there before. -/
theorem addFiles_admits_iff_witness :
    trackWav ∈ [notesTxt, trackWav] ∧ isAudioFile trackWav = true ∧
    (∃ g ∈ (addFiles [notesTxt, trackWav] App.initial).uploadedFiles,
      g.name = trackWav.name ∧ g.size = trackWav.size) ∧
    (notesTxt ∈ (addFiles [notesTxt, trackWav] App.initial).uploadedFiles →
      notesTxt ∈ App.initial.uploadedFiles ∨
        (notesTxt ∈ [notesTxt, trackWav] ∧ isAudioFile notesTxt = true)) :=
  ⟨by decide, by decide,
   (addFiles_admits_iff [notesTxt, trackWav] App.initial trackWav).2.2 (by decide) (by decide),
   (addFiles_admits_iff [notesTxt, trackWav] App.initial notesTxt).2.1⟩

/-! ### C13: no candidate passes the filter -/

/-- C13. When no candidate passes the filter (the empty list included),
`addFiles` only appends one notification of type error: the uploaded files,
the file list display, the process button and every other field are as before. -/
theorem addFiles_rejects_all (files : List File) (s : App)
    (h : ∀ f ∈ files, isAudioFile f = false) :
    addFiles files s
      = { s with effects := s.effects ++ [.notify "Please select valid audio files" .error] } := by
  have hnil : files.filter isAudioFile = [] := by
    rw [List.filter_eq_nil_iff]
    intro f hf
    simp [h f hf]
  simp [addFiles, hnil, showNotification, emitEffect]

/-- C13 at a text file and at the empty list, after `track.wav` was selected. -/
theorem addFiles_rejects_all_witness :
    (∀ f ∈ [notesTxt], isAudioFile f = false) ∧
    (addFiles [notesTxt] (addFiles [trackWav] App.initial)).uploadedFiles = [trackWav] ∧
    (addFiles [notesTxt] (addFiles [trackWav] App.initial)).effects
      = [.notify "Please select valid audio files" .error] ∧
    (addFiles [] (addFiles [trackWav] App.initial)).effects
      = [.notify "Please select valid audio files" .error] := by
  have h1 := addFiles_rejects_all [notesTxt] (addFiles [trackWav] App.initial) (by decide)
  have h2 := addFiles_rejects_all [] (addFiles [trackWav] App.initial) (by decide)
  refine ⟨by decide, ?_, ?_, ?_⟩
  · rw [h1]; rfl
  · rw [h1]; rfl
  · rw [h2]; rfl

/-! ### C14: next and previous track -/

/-- What `loadTrack` does for an index inside the playlist. -/
theorem loadTrack_in_range (index : Int) (s : App)
    (h0 : 0 ≤ index) (h1 : index < s.currentPlaylist.length) :
    ∃ track, s.currentPlaylist.get? index.toNat = some track ∧
      loadTrack index s
        = { s with audio_src := track.url, trackInfo := some track, currentTrackIndex := index } := by
  have hlt : index.toNat < s.currentPlaylist.length := by omega
  obtain ⟨track, htrack⟩ : ∃ track, s.currentPlaylist.get? index.toNat = some track :=
    ⟨s.currentPlaylist.get ⟨index.toNat, hlt⟩, List.get?_eq_get hlt⟩
  refine ⟨track, htrack, ?_⟩
  unfold loadTrack
  rw [if_neg (by omega), htrack]

/-- The tail shared by `nextTrack` and `previousTrack`, for an index inside the playlist. -/
theorem loadTrack_then_play_in_range (index : Int) (s : App)
    (h0 : 0 ≤ index) (h1 : index < s.currentPlaylist.length) :
    (if (loadTrack index s).isPlaying = true then playAudio (loadTrack index s)
      else loadTrack index s).currentTrackIndex = index ∧
    (if (loadTrack index s).isPlaying = true then playAudio (loadTrack index s)
      else loadTrack index s).isPlaying = s.isPlaying ∧
    (if (loadTrack index s).isPlaying = true then playAudio (loadTrack index s)
      else loadTrack index s).currentPlaylist = s.currentPlaylist := by
  obtain ⟨track, _, hload⟩ := loadTrack_in_range index s h0 h1
  rw [hload]
  by_cases hp : s.isPlaying = true
  · simp [hp, playAudio, updateStemPlayButton]
  · simp [hp]

/-- C14. With a current index `i` inside a playlist of length `N` (so `N ≥ 1`),
`nextTrack` leaves the index `i + 1` if `i < N - 1` and `0` otherwise,
`previousTrack` leaves `i - 1` if `i > 0` and `N - 1` otherwise; the new index
is inside the playlist, and `isPlaying` and the playlist are as before. -/
theorem next_previous_wrap (s : App)
    (h0 : 0 ≤ s.currentTrackIndex) (h1 : s.currentTrackIndex < s.currentPlaylist.length) :
    (nextTrack s).currentTrackIndex
      = (if s.currentTrackIndex < (s.currentPlaylist.length : Int) - 1
          then s.currentTrackIndex + 1 else 0) ∧
    (previousTrack s).currentTrackIndex
      = (if s.currentTrackIndex > 0
          then s.currentTrackIndex - 1 else (s.currentPlaylist.length : Int) - 1) ∧
    (0 ≤ (nextTrack s).currentTrackIndex ∧
      (nextTrack s).currentTrackIndex < s.currentPlaylist.length) ∧
    (0 ≤ (previousTrack s).currentTrackIndex ∧
      (previousTrack s).currentTrackIndex < s.currentPlaylist.length) ∧
    (nextTrack s).isPlaying = s.isPlaying ∧
    (previousTrack s).isPlaying = s.isPlaying ∧
    (nextTrack s).currentPlaylist = s.currentPlaylist ∧
    (previousTrack s).currentPlaylist = s.currentPlaylist := by
  have hn0 : 0 ≤ (if s.currentTrackIndex < (s.currentPlaylist.length : Int) - 1
      then s.currentTrackIndex + 1 else 0) := by split <;> omega
  have hn1 : (if s.currentTrackIndex < (s.currentPlaylist.length : Int) - 1
      then s.currentTrackIndex + 1 else 0) < (s.currentPlaylist.length : Int) := by
    split <;> omega
  have hp0 : 0 ≤ (if s.currentTrackIndex > 0
      then s.currentTrackIndex - 1 else (s.currentPlaylist.length : Int) - 1) := by
    split <;> omega
  have hp1 : (if s.currentTrackIndex > 0
      then s.currentTrackIndex - 1 else (s.currentPlaylist.length : Int) - 1)
      < (s.currentPlaylist.length : Int) := by
    split <;> omega
  obtain ⟨n1, n2, n3⟩ := loadTrack_then_play_in_range _ s hn0 hn1
  obtain ⟨p1, p2, p3⟩ := loadTrack_then_play_in_range _ s hp0 hp1
  have hnext : (nextTrack s).currentTrackIndex
      = (if s.currentTrackIndex < (s.currentPlaylist.length : Int) - 1
          then s.currentTrackIndex + 1 else 0) := n1
  have hprev : (previousTrack s).currentTrackIndex
      = (if s.currentTrackIndex > 0
          then s.currentTrackIndex - 1 else (s.currentPlaylist.length : Int) - 1) := p1
  refine ⟨hnext, hprev, ⟨?_, ?_⟩, ⟨?_, ?_⟩, n2, p2, n3, p3⟩
  · rw [hnext]; exact hn0
  · rw [hnext]; exact hn1
  · rw [hprev]; exact hp0
  · rw [hprev]; exact hp1

/-- C14 at a playlist of two stems with the second one current: `nextTrack`
wraps to 0 and `previousTrack` steps back to 0. -/
theorem next_previous_wrap_witness :
    0 ≤ (run scenarioTwoStems App.initial).currentTrackIndex ∧
    (run scenarioTwoStems App.initial).currentTrackIndex
      < (run scenarioTwoStems App.initial).currentPlaylist.length ∧
    (nextTrack (run scenarioTwoStems App.initial)).currentTrackIndex = 0 ∧
    (previousTrack (run scenarioTwoStems App.initial)).currentTrackIndex = 0 ∧
    (nextTrack (run scenarioTwoStems App.initial)).isPlaying = true :=
  ⟨by decide, by decide,
   (next_previous_wrap (run scenarioTwoStems App.initial) (by decide) (by decide)).1.trans
     (by decide),
   (next_previous_wrap (run scenarioTwoStems App.initial) (by decide) (by decide)).2.1.trans
     (by decide),
   (next_previous_wrap (run scenarioTwoStems App.initial) (by decide)
     (by decide)).2.2.2.2.1.trans (by decide)⟩

/-! ### C15: `playStem` and the range of the index -/

/-- For an index inside the playlist, `playStem` makes it current, loads the url
of that track, shows the player and sets the playing flag. -/
theorem playStem_in_range (index : Int) (s : App)
    (h0 : 0 ≤ index) (h1 : index < s.currentPlaylist.length) :
    ∃ track, s.currentPlaylist.get? index.toNat = some track ∧
      (playStem index s).currentTrackIndex = index ∧
      (playStem index s).audio_src = track.url ∧
      (playStem index s).isPlaying = true ∧
      (playStem index s).audioPlayerModal_display = "block" := by
  obtain ⟨track, htrack, hload⟩ :=
    loadTrack_in_range index { s with currentTrackIndex := index } h0 h1
  refine ⟨track, htrack, ?_⟩
  unfold playStem
  rw [hload]
  exact ⟨rfl, rfl, rfl, rfl⟩

/-- C15 (the code at the failing input). With a playlist of one stem, index 0
current, nothing playing and the player closed, `playStem(5)` keeps the audio
source but sets `currentTrackIndex` to 5, sets the playing flag and shows the
player. -/
theorem playStem_out_of_range_not_ignored :
    (run scenarioLoaded App.initial).currentPlaylist.length = 1 ∧
    (run scenarioLoaded App.initial).currentTrackIndex = 0 ∧
    (run scenarioLoaded App.initial).isPlaying = false ∧
    (run scenarioLoaded App.initial).audioPlayerModal_display = "" ∧
    (playStem 5 (run scenarioLoaded App.initial)).audio_src
      = (run scenarioLoaded App.initial).audio_src ∧
    (playStem 5 (run scenarioLoaded App.initial)).currentTrackIndex = 5 ∧
    (playStem 5 (run scenarioLoaded App.initial)).isPlaying = true ∧
    (playStem 5 (run scenarioLoaded App.initial)).audioPlayerModal_display = "block" := by
  refine ⟨by decide, by decide, by decide, by decide, by decide, by decide, by decide, by decide⟩

/-! ### C16: loading the stems of a finished job -/

/-- C16 (counterexample). The second stem of job "abc" is playing (index 1) when
the one stem of job "def" is installed as the new playlist: afterwards the
playlist is the new one, `currentTrackIndex` is still 1 and `isPlaying` is
still true. A later load that fails leaves the playback section shown. -/
theorem loadStems_keeps_playback_state :
    (run scenarioReload App.initial).currentPlaylist = [vocalsDef] ∧
    (run scenarioReload App.initial).currentTrackIndex = 1 ∧
    (run scenarioReload App.initial).isPlaying = true ∧
    (loadStemsForPlayback (.notOk 404) (run scenarioReload App.initial)).playbackSection_display
      = some "block" := by
  refine ⟨by decide, by decide, by decide, by decide⟩

/-- C16 (amended). When `loadStemsForPlayback` receives a non-empty `stems`
array (with an active job and an uploaded file), the playlist becomes that
array, the stem players are rendered anew and the playback section, if the page
has one, is shown, while `currentTrackIndex` and `isPlaying` keep the values
they had. When the request fails or the answer has no `stems` or an empty one,
the playlist, the stem players, `currentTrackIndex`, `isPlaying` and the
display of the playback section are unchanged. -/
theorem loadStemsForPlayback_effect (s : App) (out : StemsOutcome) :
    (∀ stems, s.currentJobId.truthy = true → s.uploadedFiles ≠ [] →
      out = .ok (some stems) → stems ≠ [] →
        (loadStemsForPlayback out s).currentPlaylist = stems ∧
        (loadStemsForPlayback out s).stemsPlayer = (displayStemsPlayer stems s).stemsPlayer ∧
        (loadStemsForPlayback out s).playbackSection_display
          = s.playbackSection_display.map (fun _ => "block") ∧
        (loadStemsForPlayback out s).currentTrackIndex = s.currentTrackIndex ∧
        (loadStemsForPlayback out s).isPlaying = s.isPlaying) ∧
    ((∀ stems, out = .ok (some stems) → stems = []) →
        (loadStemsForPlayback out s).currentPlaylist = s.currentPlaylist ∧
        (loadStemsForPlayback out s).stemsPlayer = s.stemsPlayer ∧
        (loadStemsForPlayback out s).playbackSection_display = s.playbackSection_display ∧
        (loadStemsForPlayback out s).currentTrackIndex = s.currentTrackIndex ∧
        (loadStemsForPlayback out s).isPlaying = s.isPlaying) := by
  constructor
  · intro stems hjob hfiles hout hne
    subst hout
    have hlen : stems.length > 0 := List.length_pos.mpr hne
    cases hf : s.uploadedFiles with
    | nil => exact absurd hf hfiles
    | cons first rest =>
      cases hsec : s.playbackSection_display with
      | none =>
        simp [loadStemsForPlayback, hf, hjob, hlen, displayStemsPlayer, emitEffect, hsec]
      | some d =>
        simp [loadStemsForPlayback, hf, hjob, hlen, displayStemsPlayer, emitEffect, hsec]
  · intro hfail
    cases hf : s.uploadedFiles with
    | nil => simp [loadStemsForPlayback, hf]
    | cons first rest =>
      by_cases hjob : s.currentJobId.truthy = true
      · cases out with
        | rejected message => simp [loadStemsForPlayback, hf, hjob, emitEffect]
        | notOk status => simp [loadStemsForPlayback, hf, hjob, emitEffect]
        | badBody message => simp [loadStemsForPlayback, hf, hjob, emitEffect]
        | ok stems =>
          cases stems with
          | none => simp [loadStemsForPlayback, hf, hjob, emitEffect]
          | some list =>
            have hnil : list = [] := hfail list rfl
            subst hnil
            simp [loadStemsForPlayback, hf, hjob, emitEffect]
      · simp [loadStemsForPlayback, hf, hjob]

/-- C16 (amended) at the scenario: the stem of job "def" is installed while index
1 is playing, and a load answered 404 changes nothing of the playlist. -/
theorem loadStemsForPlayback_effect_witness :
    (run (scenarioTwoStems ++ [.startProcessing (.ok (.str "def")) .ok,
      .processing_complete ⟨.str "def", 1, "3s", "/d/def"⟩]) App.initial).currentJobId.truthy
      = true ∧
    (loadStemsForPlayback (.ok (some [vocalsDef]))
      (run (scenarioTwoStems ++ [.startProcessing (.ok (.str "def")) .ok,
        .processing_complete ⟨.str "def", 1, "3s", "/d/def"⟩]) App.initial)).currentPlaylist
      = [vocalsDef] ∧
    (loadStemsForPlayback (.ok (some [vocalsDef]))
      (run (scenarioTwoStems ++ [.startProcessing (.ok (.str "def")) .ok,
        .processing_complete ⟨.str "def", 1, "3s", "/d/def"⟩]) App.initial)).currentTrackIndex
      = 1 ∧
    (loadStemsForPlayback (.notOk 404) (run scenarioReload App.initial)).currentPlaylist
      = [vocalsDef] := by
  have h := (loadStemsForPlayback_effect
    (run (scenarioTwoStems ++ [.startProcessing (.ok (.str "def")) .ok,
      .processing_complete ⟨.str "def", 1, "3s", "/d/def"⟩]) App.initial)
    (.ok (some [vocalsDef]))).1 [vocalsDef] (by decide) (by decide) rfl (by decide)
  have h2 := (loadStemsForPlayback_effect (run scenarioReload App.initial) (.notOk 404)).2
    (fun stems hs => StemsOutcome.noConfusion hs)
  refine ⟨by decide, h.1, ?_, ?_⟩
  · rw [h.2.2.2.1]; decide
  · rw [h2.1]; decide

/-! ### C17: removal, clearing and the process button -/

theorem splice1_in_range {α : Type} (xs : List α) (index : Int)
    (h0 : 0 ≤ index) (_h1 : index < xs.length) :
    splice1 xs index = xs.take index.toNat ++ xs.drop (index.toNat + 1) := by
  unfold splice1
  rw [if_neg (not_lt.mpr h0), List.eraseIdx_eq_take_drop_succ]

theorem removeFile_uploadedFiles (index : Int) (s : App) :
    (removeFile index s).uploadedFiles = splice1 s.uploadedFiles index := by
  unfold removeFile updateProcessButton updateFileList
  split <;> rfl

theorem removeFile_isProcessing (index : Int) (s : App) :
    (removeFile index s).isProcessing = s.isProcessing := by
  unfold removeFile updateProcessButton updateFileList
  split <;> rfl

theorem removeFile_processBtn (index : Int) (s : App) :
    (removeFile index s).processBtn_disabled
      = (decide ((splice1 s.uploadedFiles index).length = 0) || s.isProcessing) := by
  unfold removeFile updateProcessButton updateFileList
  split <;> rfl

/-- C17. After `removeFile(index)` and after `clearFiles()` the process button is
disabled exactly when the uploaded files are empty or `isProcessing` is true.
`clearFiles` leaves no uploaded file; `removeFile(i)` with `0 ≤ i < length`
leaves the entries before position `i` followed by the entries after it. -/
theorem remove_clear_recompute_button (s : App) (index : Int) :
    ((removeFile index s).processBtn_disabled = true ↔
      (removeFile index s).uploadedFiles = [] ∨ (removeFile index s).isProcessing = true) ∧
    ((clearFiles s).processBtn_disabled = true ↔
      (clearFiles s).uploadedFiles = [] ∨ (clearFiles s).isProcessing = true) ∧
    (clearFiles s).uploadedFiles = [] ∧
    (0 ≤ index → index < s.uploadedFiles.length →
      (removeFile index s).uploadedFiles
        = s.uploadedFiles.take index.toNat ++ s.uploadedFiles.drop (index.toNat + 1)) := by
  refine ⟨?_, ?_, rfl, fun h0 h1 => ?_⟩
  · rw [removeFile_processBtn, removeFile_uploadedFiles, removeFile_isProcessing]
    simp [List.length_eq_zero]
  · have hb : (clearFiles s).processBtn_disabled = true := rfl
    have hf : (clearFiles s).uploadedFiles = [] := rfl
    simp [hb, hf]
  · rw [removeFile_uploadedFiles, splice1_in_range _ _ h0 h1]

/-- C17 at three selected files: removing position 1 keeps the two others in order. -/
theorem remove_clear_recompute_button_witness :
    (removeFile 1 (addFiles [trackWav, clipOgv, ⟨"b.mp3", 7, "audio/mpeg"⟩]
      App.initial)).uploadedFiles = [trackWav, ⟨"b.mp3", 7, "audio/mpeg"⟩] ∧
    (removeFile 0 (addFiles [trackWav] App.initial)).processBtn_disabled = true := by
  have h := remove_clear_recompute_button
    (addFiles [trackWav, clipOgv, ⟨"b.mp3", 7, "audio/mpeg"⟩] App.initial) 1
  have h2 := remove_clear_recompute_button (addFiles [trackWav] App.initial) 0
  refine ⟨?_, ?_⟩
  · rw [h.2.2.2 (by decide) (by decide)]
    decide
  · exact h2.1.mpr (Or.inl (by decide))

/-! ### C18: error and stop share one control reset -/

/-- What `handleProcessingStop` leaves: not processing, the process button shown
and its disabled flag recomputed, the stop button hidden, the timer held in
`keepAliveInterval` stopped, and no effect added. -/
theorem handleProcessingStop_state (s : App) :
    (handleProcessingStop s).isProcessing = false ∧
    (handleProcessingStop s).processBtn_display = "inline-flex" ∧
    (handleProcessingStop s).stopBtn_display = "none" ∧
    (handleProcessingStop s).processBtn_disabled = decide (s.uploadedFiles.length = 0) ∧
    (∀ id, id ≠ 0 → s.keepAliveInterval = some id →
      (handleProcessingStop s).keepAliveInterval = none ∧
      id ∉ (handleProcessingStop s).intervals) ∧
    (handleProcessingStop s).effects = s.effects := by
  cases hk : s.keepAliveInterval with
  | none => simp [handleProcessingStop, clearKeepAlive, hk, updateProcessButton]
  | some t =>
    by_cases ht : t = 0
    · subst ht
      simp [handleProcessingStop, clearKeepAlive, hk, updateProcessButton]
      intro id hid h0
      exact absurd h0.symm hid
    · simp [handleProcessingStop, clearKeepAlive, hk, ht, updateProcessButton, clearInterval]
      intro id _ h
      subst h
      simp

/-- C18. Handling a `processing_error` event for the active job yields the state
that `handleProcessingStop` yields from the same state, with one notification
of type error appended that carries the message of the event.
`handleProcessingStop` itself leaves the client not processing, the process
button shown with its disabled flag recomputed, the stop button hidden, the
held keep-alive timer stopped, and adds no effect, so no message; a
`stopProcessing` whose request resolves adds the request alone and then makes
that reset. Without an active job id `stopProcessing` returns the state as it
was: no request, no change. -/
theorem error_is_stop_reset_plus_notification (s : App) (data : ErrorData) (stop : StopOutcome) :
    (data.job_id = s.currentJobId →
      step (.processing_error data) s
        = { handleProcessingStop s with
            effects := (handleProcessingStop s).effects
              ++ [.notify ("Processing error: " ++ data.error) .error] }) ∧
    ((handleProcessingStop s).isProcessing = false ∧
      (handleProcessingStop s).processBtn_display = "inline-flex" ∧
      (handleProcessingStop s).stopBtn_display = "none" ∧
      (handleProcessingStop s).processBtn_disabled = decide (s.uploadedFiles.length = 0) ∧
      (∀ id, id ≠ 0 → s.keepAliveInterval = some id →
        (handleProcessingStop s).keepAliveInterval = none ∧
        id ∉ (handleProcessingStop s).intervals) ∧
      (handleProcessingStop s).effects = s.effects) ∧
    (s.currentJobId.truthy = true →
      stopProcessing .resolved s
        = handleProcessingStop (emitEffect (.fetchStop s.currentJobId) s) ∧
      (stopProcessing .resolved s).effects = s.effects ++ [.fetchStop s.currentJobId]) ∧
    (s.currentJobId.truthy = false → stopProcessing stop s = s) := by
  refine ⟨fun hid => ?_, handleProcessingStop_state s, fun hjob => ?_, fun hjob => ?_⟩
  · simp [step, on_processing_error, strictEq, hid, handleProcessingError, showNotification,
      emitEffect]
  · have hs : stopProcessing .resolved s
        = handleProcessingStop (emitEffect (.fetchStop s.currentJobId) s) := by
      simp [stopProcessing, hjob]
    refine ⟨hs, ?_⟩
    rw [hs, (handleProcessingStop_state _).2.2.2.2.2]
    rfl
  · simp [stopProcessing, hjob]

/-- C18 at the scenario: job "abc" is in flight and the server reports "out of
memory"; before any job, a stop changes nothing. -/
theorem error_is_stop_reset_plus_notification_witness :
    (⟨.str "abc", "out of memory"⟩ : ErrorData).job_id
      = (run scenarioStart App.initial).currentJobId ∧
    (step (.processing_error ⟨.str "abc", "out of memory"⟩)
      (run scenarioStart App.initial)).isProcessing = false ∧
    (step (.processing_error ⟨.str "abc", "out of memory"⟩)
      (run scenarioStart App.initial)).effects
      = (run scenarioStart App.initial).effects
        ++ [.notify "Processing error: out of memory" .error] ∧
    App.initial.currentJobId.truthy = false ∧
    stopProcessing .resolved App.initial = App.initial := by
  have h := error_is_stop_reset_plus_notification (run scenarioStart App.initial)
    ⟨.str "abc", "out of memory"⟩ .resolved
  have h0 := error_is_stop_reset_plus_notification App.initial
    ⟨.str "abc", "out of memory"⟩ .resolved
  refine ⟨rfl, ?_, ?_, rfl, h0.2.2.2 rfl⟩
  · rw [h.1 rfl]; exact h.2.1.1
  · rw [h.1 rfl]
    show (handleProcessingStop (run scenarioStart App.initial)).effects ++ _ = _
    rw [h.2.1.2.2.2.2.2]
    rfl

/-! ### C19: no two uploaded files share (name, size) -/

theorem clearKeepAlive_uploadedFiles (s : App) :
    (clearKeepAlive s).uploadedFiles = s.uploadedFiles := by
  unfold clearKeepAlive
  split
  · split <;> rfl
  · rfl

theorem handleProcessingStop_uploadedFiles (s : App) :
    (handleProcessingStop s).uploadedFiles = s.uploadedFiles := by
  simp [handleProcessingStop, clearKeepAlive_uploadedFiles, updateProcessButton]

theorem handleProcessingComplete_uploadedFiles (data : CompleteData) (s : App) :
    (handleProcessingComplete data s).uploadedFiles = s.uploadedFiles := by
  simp [handleProcessingComplete, emitEffect, showNotification, updateProcessButton,
    clearKeepAlive_uploadedFiles]

theorem updateProgress_uploadedFiles (data : ProgressData) (s : App) :
    (updateProgress data s).uploadedFiles = s.uploadedFiles :=
  (updateProgress_frame data s).2.2.2.2.1

theorem updateAudioProgress_uploadedFiles (s : App) :
    (updateAudioProgress s).uploadedFiles = s.uploadedFiles := by
  unfold updateAudioProgress
  split
  · rfl
  · split <;> rfl

theorem loadTrack_uploadedFiles (i : Int) (s : App) :
    (loadTrack i s).uploadedFiles = s.uploadedFiles := by
  unfold loadTrack
  split
  · rfl
  · split <;> rfl

theorem loadTrack_then_play_uploadedFiles (i : Int) (s : App) :
    (if (loadTrack i s).isPlaying = true then playAudio (loadTrack i s)
      else loadTrack i s).uploadedFiles = s.uploadedFiles := by
  split
  · exact loadTrack_uploadedFiles i s
  · exact loadTrack_uploadedFiles i s

theorem startProcessing_uploadedFiles (upload : UploadOutcome) (process : ProcessOutcome)
    (s : App) : (startProcessing upload process s).uploadedFiles = s.uploadedFiles := by
  unfold startProcessing
  by_cases hlen : s.uploadedFiles.length = 0
  · simp [hlen, showNotification, emitEffect]
  · cases upload <;> cases process <;>
      simp [hlen, startProcessingCatch, startProcessingStarted, showNotification, emitEffect,
        setInterval]

theorem loadStemsForPlayback_uploadedFiles (out : StemsOutcome) (s : App) :
    (loadStemsForPlayback out s).uploadedFiles = s.uploadedFiles := by
  dsimp only [loadStemsForPlayback]
  repeat' split
  all_goals rfl

/-- Each operation either leaves the uploaded files as they were or is one of
`addFiles`, `removeFile`, `clearFiles` (also behind the new-process button). -/
theorem step_uploadedFiles (op : Op) (s : App) :
    (step op s).uploadedFiles = s.uploadedFiles ∨
    (∃ files, (step op s).uploadedFiles = (addFiles files s).uploadedFiles) ∨
    (∃ index, (step op s).uploadedFiles = (removeFile index s).uploadedFiles) ∨
    (step op s).uploadedFiles = [] := by
  cases op with
  | addFiles files => exact Or.inr (Or.inl ⟨files, rfl⟩)
  | removeFile index => exact Or.inr (Or.inr (Or.inl ⟨index, rfl⟩))
  | clearFiles => exact Or.inr (Or.inr (Or.inr rfl))
  | newProcessClick => exact Or.inr (Or.inr (Or.inr rfl))
  | startProcessing upload process => exact Or.inl (startProcessing_uploadedFiles upload process s)
  | stopProcessing stop =>
    left
    simp only [step, stopProcessing]
    split
    · rfl
    · cases stop with
      | resolved => simp [handleProcessingStop_uploadedFiles, emitEffect]
      | rejected message => rfl
  | handleProcessingStop => exact Or.inl (handleProcessingStop_uploadedFiles s)
  | connect => exact Or.inl rfl
  | disconnect => exact Or.inl rfl
  | processing_update data =>
    left
    simp only [step, on_processing_update]
    split
    · exact updateProgress_uploadedFiles data s
    · rfl
  | processing_complete data =>
    left
    simp only [step, on_processing_complete]
    split
    · exact handleProcessingComplete_uploadedFiles data s
    · rfl
  | processing_error data =>
    left
    simp only [step, on_processing_error]
    split
    · simp [handleProcessingError, showNotification, emitEffect,
        handleProcessingStop_uploadedFiles]
    · rfl
  | reconnect =>
    left
    simp only [step, on_reconnect]
    split <;> rfl
  | keepAliveTick id =>
    left
    simp only [step, keepAliveTick]
    repeat' split
    all_goals rfl
  | downloadClick =>
    left
    simp only [step, downloadClick]
    split <;> rfl
  | loadStemsForPlayback out => exact Or.inl (loadStemsForPlayback_uploadedFiles out s)
  | playStem index =>
    left
    simp [step, playStem, playAudio, updateStemPlayButton, loadTrack_uploadedFiles]
  | loadTrack index => exact Or.inl (loadTrack_uploadedFiles index s)
  | togglePlayPause =>
    left
    simp only [step, togglePlayPause]
    split <;> rfl
  | playAudio => exact Or.inl rfl
  | pauseAudio => exact Or.inl rfl
  | stopAudio => exact Or.inl rfl
  | previousTrack =>
    left
    dsimp only [step, previousTrack]
    exact loadTrack_then_play_uploadedFiles _ s
  | nextTrack =>
    left
    dsimp only [step, nextTrack]
    exact loadTrack_then_play_uploadedFiles _ s
  | seekAudio value =>
    left
    simp only [step, seekAudio]
    split <;> rfl
  | updateVolume value => exact Or.inl rfl
  | loadedmetadata duration => exact Or.inl rfl
  | timeupdate time =>
    left
    simp only [step]
    rw [updateAudioProgress_uploadedFiles]
  | ended =>
    left
    dsimp only [step, nextTrack]
    exact loadTrack_then_play_uploadedFiles _ s
  | closeAudioPlayer => exact Or.inl rfl

theorem addFiles_noDuplicateKeys (files : List File) (s : App)
    (h : NoDuplicateKeys s.uploadedFiles) : NoDuplicateKeys (addFiles files s).uploadedFiles := by
  rw [addFiles_uploadedFiles]
  exact foldl_push_noDuplicateKeys _ _ h

theorem removeFile_noDuplicateKeys (index : Int) (s : App)
    (h : NoDuplicateKeys s.uploadedFiles) : NoDuplicateKeys (removeFile index s).uploadedFiles := by
  rw [removeFile_uploadedFiles]
  unfold NoDuplicateKeys at *
  unfold splice1
  split
  · exact List.Nodup.sublist ((List.eraseIdx_sublist _ _).map fileKey) h
  · exact List.Nodup.sublist ((List.eraseIdx_sublist _ _).map fileKey) h

theorem step_noDuplicateKeys (op : Op) (s : App) (h : NoDuplicateKeys s.uploadedFiles) :
    NoDuplicateKeys (step op s).uploadedFiles := by
  rcases step_uploadedFiles op s with hsame | ⟨files, hadd⟩ | ⟨index, hrem⟩ | hnil
  · rw [hsame]; exact h
  · rw [hadd]; exact addFiles_noDuplicateKeys files s h
  · rw [hrem]; exact removeFile_noDuplicateKeys index s h
  · rw [hnil]; exact List.nodup_nil

theorem run_noDuplicateKeys (ops : List Op) :
    ∀ s : App, NoDuplicateKeys s.uploadedFiles → NoDuplicateKeys (run ops s).uploadedFiles := by
  induction ops with
  | nil => intro s h; exact h
  | cons op rest ih =>
    intro s h
    exact ih (step op s) (step_noDuplicateKeys op s h)

/-- C19. If no two uploaded files share a (name, size) pair, then none do after
`addFiles` (whatever the candidates, repeats included), after `removeFile`,
after `clearFiles`, and after any sequence of operations. `addFiles` leaves the
list it found as a prefix and appends files taken, in candidate order, from the
candidates that pass the filter. -/
theorem uploadedFiles_no_duplicate_keys (s : App) (h : NoDuplicateKeys s.uploadedFiles) :
    (∀ files, NoDuplicateKeys (addFiles files s).uploadedFiles) ∧
    (∀ index, NoDuplicateKeys (removeFile index s).uploadedFiles) ∧
    NoDuplicateKeys (clearFiles s).uploadedFiles ∧
    (∀ ops, NoDuplicateKeys (run ops s).uploadedFiles) ∧
    (∀ files, ∃ added : List File,
      (addFiles files s).uploadedFiles = s.uploadedFiles ++ added ∧
      added.Sublist (files.filter isAudioFile)) := by
  refine ⟨fun files => addFiles_noDuplicateKeys files s h,
    fun index => removeFile_noDuplicateKeys index s h, ?_,
    fun ops => run_noDuplicateKeys ops s h, fun files => ?_⟩
  · show NoDuplicateKeys []
    exact List.nodup_nil
  · rw [addFiles_uploadedFiles]
    exact foldl_push_append _ _

/-- C19 at a candidate list that repeats `track.wav`: it is stored once. -/
theorem uploadedFiles_no_duplicate_keys_witness :
    NoDuplicateKeys App.initial.uploadedFiles ∧
    NoDuplicateKeys (addFiles [trackWav, trackWav] App.initial).uploadedFiles ∧
    (addFiles [trackWav, trackWav] App.initial).uploadedFiles = [trackWav] ∧
    NoDuplicateKeys (run scenarioReload App.initial).uploadedFiles :=
  ⟨List.nodup_nil,
   (uploadedFiles_no_duplicate_keys App.initial List.nodup_nil).1 [trackWav, trackWav],
   by decide,
   (uploadedFiles_no_duplicate_keys App.initial List.nodup_nil).2.2.2.1 scenarioReload⟩

end AudioSeparatorApp
